import Mathlib

/-!
Verification of the brightness-control core of the BrightTray repository.

The development shallowly embeds the Python sources:
  * `src/core/brightness_backend.py`  (`BrightnessBackend`, `MonitorInfo`)
  * `src/core/brightness_controller.py` (`BrightnessController`)
  * `src/config/config_manager.py`   (`ConfigManager`)
  * `src/core/monitor_manager.py`    (`MonitorManager`)

Python strings are modelled as `List Char` (`PyStr`); the decimal printing
used by f-strings and the parsing done by `int(...)` are modelled explicitly
so that the monitor-id round trip `"MONITOR_{i}"` → `int` can be proved.

Hardware is modelled by explicit per-monitor flags: a DDC/CI monitor has a
current luminance plus flags saying whether `get_luminance`/`set_luminance`
raise; a WMI display likewise (plus a flag for `sbc.get_brightness`
returning an empty list).  Every hardware touch is recorded in a trace of
`HwEvent`s so that call-ordering claims are expressible.
-/

set_option maxHeartbeats 1000000

/-- Python strings, modelled as lists of characters. -/
abbrev PyStr := List Char

/-- Model of Python's `str.startswith`. -/
def isPrefixOfChars : PyStr → PyStr → Bool
  | [], _ => true
  | _ :: _, [] => false
  | a :: as, b :: bs => a = b && isPrefixOfChars as bs

/-- Model of Python's `str.split(sep)` for a one-character separator. -/
def splitOnChar (c : Char) : PyStr → List PyStr
  | [] => [[]]
  | x :: xs =>
    if x = c then [] :: splitOnChar c xs
    else
      match splitOnChar c xs with
      | t :: ts => (x :: t) :: ts
      | [] => [[x]]

/-- Value of a decimal digit character, `none` for non-digits. -/
def charToDigit? (c : Char) : Option Nat :=
  if 48 ≤ c.toNat ∧ c.toNat ≤ 57 then some (c.toNat - 48) else none

/-- Accumulating decimal parser over a digit string. -/
def parseDigitsAux : PyStr → Nat → Option Nat
  | [], acc => some acc
  | c :: cs, acc =>
    match charToDigit? c with
    | some d => parseDigitsAux cs (acc * 10 + d)
    | none => none

/-- Parse a non-empty all-digit string as a natural number. -/
def parseDigits (l : PyStr) : Option Nat :=
  if l = [] then none else parseDigitsAux l 0

/-- Model of Python's `int(str)` (optional leading minus, then digits). -/
def pyInt? (l : PyStr) : Option Int :=
  match l with
  | [] => none
  | c :: rest =>
    if c = '-' then (parseDigits rest).map (fun n => -(n : Int))
    else (parseDigits (c :: rest)).map (fun n => (n : Int))

/-- Decimal printing of a natural number, as Python's `str` does. -/
def pyStrOfNat (n : Nat) : PyStr :=
  if n < 10 then [Nat.digitChar n]
  else pyStrOfNat (n / 10) ++ [Nat.digitChar (n % 10)]
termination_by n
decreasing_by exact Nat.div_lt_self (by omega) (by omega)

/-- Decimal printing of an integer, as Python's `str` does. -/
def pyStrOfInt (i : Int) : PyStr :=
  if i < 0 then '-' :: pyStrOfNat (-i).toNat else pyStrOfNat i.toNat

theorem isPrefixOfChars_append (a b : PyStr) : isPrefixOfChars a (a ++ b) = true := by
  induction a with
  | nil => rfl
  | cons x xs ih => simp [isPrefixOfChars, ih]

theorem splitOnChar_not_mem {c : Char} {l : PyStr} (h : c ∉ l) :
    splitOnChar c l = [l] := by
  induction l with
  | nil => rfl
  | cons x xs ih =>
    simp only [List.mem_cons, not_or] at h
    simp [splitOnChar, Ne.symm h.1, ih h.2]

theorem splitOnChar_append_cons {c : Char} {a : PyStr} (b : PyStr) (h : c ∉ a) :
    splitOnChar c (a ++ c :: b) = a :: splitOnChar c b := by
  induction a with
  | nil => simp [splitOnChar]
  | cons x xs ih =>
    simp only [List.mem_cons, not_or] at h
    simp [splitOnChar, Ne.symm h.1, ih h.2]

theorem parseDigitsAux_append (xs ys : PyStr) (acc : Nat) :
    parseDigitsAux (xs ++ ys) acc =
      match parseDigitsAux xs acc with
      | some m => parseDigitsAux ys m
      | none => none := by
  induction xs generalizing acc with
  | nil => rfl
  | cons c cs ih =>
    simp only [List.cons_append, parseDigitsAux]
    cases charToDigit? c with
    | some d => exact ih (acc * 10 + d)
    | none => rfl

theorem charToDigit?_digitChar {d : Nat} (h : d < 10) :
    charToDigit? (Nat.digitChar d) = some d := by
  interval_cases d <;> rfl

theorem digitChar_ne_underscore {d : Nat} (h : d < 10) :
    Nat.digitChar d ≠ '_' := by
  interval_cases d <;> decide

theorem digitChar_ne_minus {d : Nat} (h : d < 10) :
    Nat.digitChar d ≠ '-' := by
  interval_cases d <;> decide

theorem pyStrOfNat_ne_nil (n : Nat) : pyStrOfNat n ≠ [] := by
  unfold pyStrOfNat
  split
  · simp
  · simp

theorem mem_pyStrOfNat {n : Nat} {c : Char} (h : c ∈ pyStrOfNat n) :
    ∃ d, d < 10 ∧ c = Nat.digitChar d := by
  induction n using pyStrOfNat.induct with
  | case1 n hlt =>
    rw [pyStrOfNat, if_pos hlt] at h
    simp only [List.mem_singleton] at h
    exact ⟨n, hlt, h⟩
  | case2 n hlt ih =>
    rw [pyStrOfNat, if_neg hlt] at h
    rcases List.mem_append.mp h with h' | h'
    · exact ih h'
    · simp only [List.mem_singleton] at h'
      exact ⟨n % 10, Nat.mod_lt _ (by omega), h'⟩

theorem underscore_not_mem_pyStrOfNat (n : Nat) : '_' ∉ pyStrOfNat n := by
  intro h
  obtain ⟨d, hd, he⟩ := mem_pyStrOfNat h
  exact digitChar_ne_underscore hd he.symm

theorem underscore_not_mem_pyStrOfInt (i : Int) : '_' ∉ pyStrOfInt i := by
  unfold pyStrOfInt
  split
  · intro h
    rcases List.mem_cons.mp h with h' | h'
    · exact absurd h'.symm (by decide)
    · exact underscore_not_mem_pyStrOfNat _ h'
  · exact underscore_not_mem_pyStrOfNat _

theorem parseDigitsAux_pyStrOfNat (n : Nat) :
    ∀ acc, parseDigitsAux (pyStrOfNat n) acc =
      some (acc * 10 ^ (pyStrOfNat n).length + n) := by
  induction n using pyStrOfNat.induct with
  | case1 n hlt =>
    intro acc
    rw [pyStrOfNat, if_pos hlt]
    simp [parseDigitsAux, charToDigit?_digitChar hlt]
  | case2 n hlt ih =>
    intro acc
    rw [pyStrOfNat, if_neg hlt]
    rw [parseDigitsAux_append, ih acc]
    have h10 : n % 10 < 10 := Nat.mod_lt _ (by omega)
    simp only [parseDigitsAux, charToDigit?_digitChar h10]
    have hmod : n / 10 * 10 + n % 10 = n := by omega
    have : (acc * 10 ^ (pyStrOfNat (n / 10)).length + n / 10) * 10 + n % 10 =
        acc * 10 ^ ((pyStrOfNat (n / 10)).length + 1) + n := by
      calc (acc * 10 ^ (pyStrOfNat (n / 10)).length + n / 10) * 10 + n % 10
          = acc * (10 ^ (pyStrOfNat (n / 10)).length * 10) + (n / 10 * 10 + n % 10) := by
            ring
        _ = acc * 10 ^ ((pyStrOfNat (n / 10)).length + 1) + n := by rw [hmod, pow_succ]
    simp [List.length_append, this]

theorem parseDigits_pyStrOfNat (n : Nat) : parseDigits (pyStrOfNat n) = some n := by
  rw [parseDigits, if_neg (pyStrOfNat_ne_nil n), parseDigitsAux_pyStrOfNat]
  simp

theorem pyStrOfNat_head_not_minus (n : Nat) {c : Char} {rest : PyStr}
    (h : pyStrOfNat n = c :: rest) : c ≠ '-' := by
  have : c ∈ pyStrOfNat n := by rw [h]; exact List.mem_cons_self _ _
  obtain ⟨d, hd, he⟩ := mem_pyStrOfNat this
  exact he ▸ digitChar_ne_minus hd

theorem pyInt?_pyStrOfInt (i : Int) : pyInt? (pyStrOfInt i) = some i := by
  by_cases hneg : i < 0
  · rw [pyStrOfInt, if_pos hneg]
    simp [pyInt?, parseDigits_pyStrOfNat]
    omega
  · rw [pyStrOfInt, if_neg hneg]
    obtain ⟨c, rest, hrep⟩ : ∃ c rest, pyStrOfNat i.toNat = c :: rest := by
      rcases h : pyStrOfNat i.toNat with _ | ⟨c, rest⟩
      · exact absurd h (pyStrOfNat_ne_nil _)
      · exact ⟨c, rest, rfl⟩
    have hc : c ≠ '-' := pyStrOfNat_head_not_minus _ hrep
    have hval : ((i.toNat : Nat) : Int) = i := by omega
    rw [hrep]
    simp only [pyInt?, if_neg hc]
    rw [← hrep, parseDigits_pyStrOfNat]
    simp [hval]

/-!
## Brightness backend (`src/core/brightness_backend.py`)

Hardware model: a DDC/CI monitor (`monitorcontrol`) carries its current
luminance and flags telling whether `get_luminance` / `set_luminance`
succeed or raise; a WMI display (`screen_brightness_control`) likewise,
plus a flag for `sbc.get_brightness` returning an empty list.
-/

/-- A DDC/CI monitor handle as enumerated by `monitorcontrol.get_monitors()`. -/
structure DDCMonitor where
  lum : Int
  getOk : Bool
  setOk : Bool
deriving DecidableEq, Repr

/-- A WMI display as enumerated by `sbc.list_monitors()`. -/
structure WMIDisplay where
  lum : Int
  getOk : Bool
  getEmpty : Bool
  setOk : Bool
deriving DecidableEq, Repr

/-- The mutable state of a `BrightnessBackend` instance after a refresh. -/
structure BackendState where
  monitors : List DDCMonitor
  sbc_displays : List WMIDisplay
  primary_monitor_index : Nat
  SWAP_MONITOR_ORDER : Bool
deriving DecidableEq, Repr

/-- One hardware protocol access, for observing call order. -/
inductive HwEvent where
  | ddcGet (p : Nat)
  | wmiGet (p : Nat)
  | ddcSet (p : Nat) (v : Int)
  | wmiSet (p : Nat) (v : Int)
deriving DecidableEq, Repr

/-- The record built by `BrightnessBackend.get_monitor_info` (`MonitorInfo`). -/
structure MonitorInfo where
  id : PyStr
  name : PyStr
  index : Int
  is_primary : Bool
  supports_brightness : Bool
deriving DecidableEq, Repr

/-- Model of `BrightnessBackend._apply_monitor_swap`. -/
def BrightnessBackend.apply_monitor_swap (s : BackendState) (logical_index : Int) : Int :=
  if !s.SWAP_MONITOR_ORDER then logical_index
  else if logical_index = 0 then 1
  else if logical_index = 1 then 0
  else logical_index

/-- Model of `BrightnessBackend.get_monitor_count` (max of the two lists). -/
def BrightnessBackend.get_monitor_count (s : BackendState) : Nat :=
  max s.monitors.length s.sbc_displays.length

/-- Model of `BrightnessBackend._id_to_index`. -/
def BrightnessBackend.id_to_index (monitor_id : PyStr) : Option Int :=
  if isPrefixOfChars "MONITOR_".toList monitor_id then
    match (splitOnChar '_' monitor_id).get? 1 with
    | some tok => pyInt? tok
    | none => none
  else none

/-- A `with monitor: monitor.get_luminance()` call at a physical index;
`none` models the exception path. -/
def ddcGetLuminance (s : BackendState) (p : Nat) : Option Int :=
  match s.monitors[p]? with
  | some m => if m.getOk then some m.lum else none
  | none => none

/-- An `sbc.get_brightness(display=...)` call at a physical index; `none`
models the exception path, `some []` an empty result list. -/
def wmiGetBrightness (s : BackendState) (p : Nat) : Option (List Int) :=
  match s.sbc_displays[p]? with
  | some d => if d.getOk then some (if d.getEmpty then [] else [d.lum]) else none
  | none => none

/-- A `with monitor: monitor.set_luminance(v)` call; `none` models the
exception path, otherwise the stored luminance is updated. -/
def ddcSetLuminance (s : BackendState) (p : Nat) (v : Int) : Option BackendState :=
  match s.monitors[p]? with
  | some m =>
      if m.setOk then some { s with monitors := s.monitors.set p { m with lum := v } }
      else none
  | none => none

/-- An `sbc.set_brightness(v, display=...)` call; `none` models the
exception path. -/
def wmiSetBrightness (s : BackendState) (p : Nat) (v : Int) : Option BackendState :=
  match s.sbc_displays[p]? with
  | some d =>
      if d.setOk then some { s with sbc_displays := s.sbc_displays.set p { d with lum := v } }
      else none
  | none => none

/-- Model of `BrightnessBackend._check_brightness_support` (DDC/CI first,
then WMI, each behind its own list-bounds check). -/
def BrightnessBackend.check_brightness_support (s : BackendState) (logical_index : Int) : Bool :=
  let physical := BrightnessBackend.apply_monitor_swap s logical_index
  if physical < 0 ∨ (BrightnessBackend.get_monitor_count s : Int) ≤ physical then false
  else
    let p := physical.toNat
    let wmiPart : Bool :=
      if p < s.sbc_displays.length then
        match wmiGetBrightness s p with
        | some lst => decide (0 < lst.length)
        | none => false
      else false
    if p < s.monitors.length then
      match ddcGetLuminance s p with
      | some _ => true
      | none => wmiPart
    else wmiPart

/-- Model of `BrightnessBackend.get_monitor_info`. -/
def BrightnessBackend.get_monitor_info (s : BackendState) (index : Int) : Option MonitorInfo :=
  let physical := BrightnessBackend.apply_monitor_swap s index
  if physical < 0 ∨ (s.monitors.length : Int) ≤ physical then none
  else some {
    id := "MONITOR_".toList ++ pyStrOfInt index
    name := "Monitor ".toList ++ pyStrOfInt (index + 1)
    index := index
    is_primary := decide (physical = (s.primary_monitor_index : Int))
    supports_brightness := BrightnessBackend.check_brightness_support s index }

/-- Model of `BrightnessBackend.get_all_monitors_info` (iterates over the
DDC/CI list length, not the hybrid count). -/
def BrightnessBackend.get_all_monitors_info (s : BackendState) : List (Option MonitorInfo) :=
  (List.range s.monitors.length).map
    (fun i : Nat => BrightnessBackend.get_monitor_info s (Int.ofNat i))

/-- The WMI fallback step of `get_brightness` (list bounds, then the call). -/
def wmiGetStep (s : BackendState) (p : Nat) : Option Int × List HwEvent :=
  if p < s.sbc_displays.length then
    match wmiGetBrightness s p with
    | some lst => (lst.head?, [HwEvent.wmiGet p])
    | none => (none, [HwEvent.wmiGet p])
  else (none, [])

/-- Model of `BrightnessBackend.get_brightness`, returning the result and
the trace of hardware protocol attempts. -/
def BrightnessBackend.get_brightness (s : BackendState) (monitor_id : PyStr) :
    Option Int × List HwEvent :=
  match BrightnessBackend.id_to_index monitor_id with
  | none => (none, [])
  | some logical_index =>
    let physical := BrightnessBackend.apply_monitor_swap s logical_index
    if physical < 0 ∨ (BrightnessBackend.get_monitor_count s : Int) ≤ physical then (none, [])
    else
      let p := physical.toNat
      if p < s.monitors.length then
        match ddcGetLuminance s p with
        | some b => (some b, [HwEvent.ddcGet p])
        | none =>
          let w := wmiGetStep s p
          (w.1, HwEvent.ddcGet p :: w.2)
      else wmiGetStep s p

/-- The WMI fallback step of `set_brightness`. -/
def wmiSetStep (s : BackendState) (p : Nat) (v : Int) :
    Bool × BackendState × List HwEvent :=
  if p < s.sbc_displays.length then
    match wmiSetBrightness s p v with
    | some s' => (true, s', [HwEvent.wmiSet p v])
    | none => (false, s, [HwEvent.wmiSet p v])
  else (false, s, [])

/-- Model of `BrightnessBackend.set_brightness`: clamps the value first,
then DDC/CI, then the WMI fallback; returns the success flag, the updated
hardware state, and the trace of attempts. -/
def BrightnessBackend.set_brightness (s : BackendState) (monitor_id : PyStr) (value : Int) :
    Bool × BackendState × List HwEvent :=
  let value := max 0 (min 100 value)
  match BrightnessBackend.id_to_index monitor_id with
  | none => (false, s, [])
  | some logical_index =>
    let physical := BrightnessBackend.apply_monitor_swap s logical_index
    if physical < 0 ∨ (BrightnessBackend.get_monitor_count s : Int) ≤ physical then (false, s, [])
    else
      let p := physical.toNat
      if p < s.monitors.length then
        match ddcSetLuminance s p value with
        | some s' => (true, s', [HwEvent.ddcSet p value])
        | none =>
          let w := wmiSetStep s p value
          (w.1, w.2.1, HwEvent.ddcSet p value :: w.2.2)
      else wmiSetStep s p value

/-- The id built by `get_monitor_info` parses back to its logical index. -/
theorem BrightnessBackend.id_to_index_mk (i : Int) :
    BrightnessBackend.id_to_index ("MONITOR_".toList ++ pyStrOfInt i) = some i := by
  rw [BrightnessBackend.id_to_index, if_pos (isPrefixOfChars_append _ _)]
  have h1 : "MONITOR_".toList ++ pyStrOfInt i
      = "MONITOR".toList ++ '_' :: pyStrOfInt i := rfl
  rw [h1, splitOnChar_append_cons _ (by decide),
    splitOnChar_not_mem (underscore_not_mem_pyStrOfInt i)]
  simp [pyInt?_pyStrOfInt]

/-- The logical-to-physical map is injective (for any swap configuration). -/
theorem BrightnessBackend.apply_monitor_swap_injective (s : BackendState) {a b : Int}
    (h : BrightnessBackend.apply_monitor_swap s a = BrightnessBackend.apply_monitor_swap s b) :
    a = b := by
  unfold BrightnessBackend.apply_monitor_swap at h
  split_ifs at h <;> omega

/-- A sample backend: two DDC/CI monitors (the second one refuses writes),
one WMI display, primary at physical index 1, swap enabled. -/
def sampleBackend : BackendState :=
  { monitors := [⟨30, true, true⟩, ⟨40, true, false⟩]
    sbc_displays := [⟨55, true, false, true⟩]
    primary_monitor_index := 1
    SWAP_MONITOR_ORDER := true }

/-- A backend with exactly one DDC/CI monitor and the first-two swap on. -/
def backendOneDDCSwap : BackendState :=
  { monitors := [⟨50, true, true⟩]
    sbc_displays := []
    primary_monitor_index := 0
    SWAP_MONITOR_ORDER := true }

/-- C3: the logical-to-physical mapping is a self-inverse permutation —
applying `_apply_monitor_swap` twice to 0 and to 1 returns the original
index, and any index ≥ 2 is left unchanged by a single application. -/
theorem C3_swap_self_inverse (s : BackendState) :
    BrightnessBackend.apply_monitor_swap s (BrightnessBackend.apply_monitor_swap s 0) = 0 ∧
    BrightnessBackend.apply_monitor_swap s (BrightnessBackend.apply_monitor_swap s 1) = 1 ∧
    ∀ i : Int, 2 ≤ i → BrightnessBackend.apply_monitor_swap s i = i := by
  refine ⟨?_, ?_, ?_⟩
  · unfold BrightnessBackend.apply_monitor_swap
    split_ifs <;> omega
  · unfold BrightnessBackend.apply_monitor_swap
    split_ifs <;> omega
  · intro i hi
    unfold BrightnessBackend.apply_monitor_swap
    split_ifs <;> omega

/-- Witness for C3 at a concrete backend state and the concrete index 5. -/
theorem C3_swap_self_inverse_witness :
    BrightnessBackend.apply_monitor_swap sampleBackend
      (BrightnessBackend.apply_monitor_swap sampleBackend 0) = 0 ∧
    (2 : Int) ≤ 5 ∧
    BrightnessBackend.apply_monitor_swap sampleBackend 5 = 5 :=
  ⟨(C3_swap_self_inverse sampleBackend).1, by decide,
    (C3_swap_self_inverse sampleBackend).2.2 5 (by decide)⟩

/-- C10: `get_all_monitors_info` has one element per DDC/CI-enumerated
monitor (not per hybrid monitor count), its `i`-th element is
`get_monitor_info i`, and with the swap enabled and exactly one DDC/CI
monitor the element at position 0 is absent. -/
theorem C10_all_monitors_info (s : BackendState) :
    (BrightnessBackend.get_all_monitors_info s).length = s.monitors.length ∧
    (∀ i : Nat, i < s.monitors.length →
      (BrightnessBackend.get_all_monitors_info s).get? i
        = some (BrightnessBackend.get_monitor_info s (i : Int))) ∧
    BrightnessBackend.get_monitor_count s = max s.monitors.length s.sbc_displays.length ∧
    (s.SWAP_MONITOR_ORDER = true → s.monitors.length = 1 →
      (BrightnessBackend.get_all_monitors_info s).get? 0 = some none) := by
  refine ⟨?_, ?_, rfl, ?_⟩
  · rw [BrightnessBackend.get_all_monitors_info, List.length_map, List.length_range]
  · intro i hi
    simp only [BrightnessBackend.get_all_monitors_info, List.get?_eq_getElem?,
      List.getElem?_map, List.getElem?_range hi, Option.map_some', Int.ofNat_eq_natCast]
  · intro hswap hlen
    have h0 : (BrightnessBackend.get_all_monitors_info s).get? 0
        = some (BrightnessBackend.get_monitor_info s 0) := by
      simp only [BrightnessBackend.get_all_monitors_info, List.get?_eq_getElem?,
        List.getElem?_map, List.getElem?_range (hlen ▸ Nat.zero_lt_one),
        Option.map_some', Int.ofNat_eq_natCast, Nat.cast_zero]
    rw [h0]
    rw [BrightnessBackend.get_monitor_info]
    simp only [BrightnessBackend.apply_monitor_swap, hswap]
    rw [if_pos]
    simp [hlen]

/-- Witness for C10 at a concrete one-monitor backend with the swap on. -/
theorem C10_all_monitors_info_witness :
    (BrightnessBackend.get_all_monitors_info backendOneDDCSwap).length
      = backendOneDDCSwap.monitors.length ∧
    (0 : Nat) < backendOneDDCSwap.monitors.length ∧
    (BrightnessBackend.get_all_monitors_info backendOneDDCSwap).get? 0
      = some (BrightnessBackend.get_monitor_info backendOneDDCSwap (0 : Int)) ∧
    (BrightnessBackend.get_all_monitors_info backendOneDDCSwap).get? 0 = some none :=
  ⟨(C10_all_monitors_info backendOneDDCSwap).1, by decide,
    by
      have := (C10_all_monitors_info backendOneDDCSwap).2.1 0 (by decide)
      simpa using this,
    (C10_all_monitors_info backendOneDDCSwap).2.2.2 rfl rfl⟩

/-- C1 counterexample: with the swap enabled and exactly one DDC/CI monitor,
logical index 0 is within `[0, get_monitor_count)` yet `get_monitor_info 0`
returns no record at all (the claim asserts a record is always returned). -/
theorem C1_counterexample :
    (0 : Int) ≤ 0 ∧
    (0 : Int) < (BrightnessBackend.get_monitor_count backendOneDDCSwap : Int) ∧
    BrightnessBackend.get_monitor_info backendOneDDCSwap 0 = none := by
  refine ⟨le_refl _, by decide, ?_⟩
  rw [BrightnessBackend.get_monitor_info]
  rw [if_pos]
  decide

/-- C1 amended: for logical indices in `[0, get_monitor_count)`,
`get_monitor_info` returns either no record (when the mapped physical index
is outside the DDC/CI list bounds) or a record whose `index` equals the
logical index; among returned records, `is_primary` holds exactly for the
one whose physical index equals the detected primary index, and for none
when the primary index is outside the DDC/CI enumeration bounds. -/
theorem C1_monitor_info_amended (s : BackendState) (i : Int) (h0 : 0 ≤ i)
    (hi : i < (BrightnessBackend.get_monitor_count s : Int)) :
    (∀ r, BrightnessBackend.get_monitor_info s i = some r →
      r.index = i ∧
      (r.is_primary = true ↔
        BrightnessBackend.apply_monitor_swap s i = (s.primary_monitor_index : Int))) ∧
    (∀ j : Int, ∀ ri rj, BrightnessBackend.get_monitor_info s i = some ri →
      BrightnessBackend.get_monitor_info s j = some rj →
      ri.is_primary = true → rj.is_primary = true → i = j) ∧
    ((s.monitors.length : Int) ≤ (s.primary_monitor_index : Int) →
      ∀ r, BrightnessBackend.get_monitor_info s i = some r → r.is_primary = false) := by
  have hfields : ∀ (k : Int) r, BrightnessBackend.get_monitor_info s k = some r →
      r.index = k ∧
      (r.is_primary = true ↔
        BrightnessBackend.apply_monitor_swap s k = (s.primary_monitor_index : Int)) ∧
      BrightnessBackend.apply_monitor_swap s k < (s.monitors.length : Int) := by
    intro k r hr
    rw [BrightnessBackend.get_monitor_info] at hr
    by_cases hc : BrightnessBackend.apply_monitor_swap s k < 0 ∨
        (s.monitors.length : Int) ≤ BrightnessBackend.apply_monitor_swap s k
    · rw [if_pos hc] at hr
      exact absurd hr (by simp)
    · rw [if_neg hc] at hr
      push_neg at hc
      injection hr with hr
      subst hr
      refine ⟨rfl, ?_, hc.2⟩
      simp [decide_eq_true_iff]
  refine ⟨fun r hr => ⟨(hfields i r hr).1, (hfields i r hr).2.1⟩, ?_, ?_⟩
  · intro j ri rj hri hrj hpi hpj
    have h1 := (hfields i ri hri).2.1.mp hpi
    have h2 := (hfields j rj hrj).2.1.mp hpj
    exact BrightnessBackend.apply_monitor_swap_injective s (h1.trans h2.symm)
  · intro hout r hr
    have h1 := (hfields i r hr).2.1
    have h2 := (hfields i r hr).2.2
    rcases Bool.eq_false_or_eq_true r.is_primary with hb | hb
    · exact absurd (h1.mp hb) (by omega)
    · exact hb

/-- Witness for the amended C1 at a concrete two-monitor backend where the
swap maps logical 0 to physical 1, the detected primary. -/
theorem C1_monitor_info_amended_witness :
    (0 : Int) ≤ 0 ∧
    (0 : Int) < (BrightnessBackend.get_monitor_count sampleBackend : Int) ∧
    ((∀ r, BrightnessBackend.get_monitor_info sampleBackend 0 = some r →
      r.index = 0 ∧
      (r.is_primary = true ↔
        BrightnessBackend.apply_monitor_swap sampleBackend 0
          = (sampleBackend.primary_monitor_index : Int))) ∧
    (∀ j : Int, ∀ ri rj, BrightnessBackend.get_monitor_info sampleBackend 0 = some ri →
      BrightnessBackend.get_monitor_info sampleBackend j = some rj →
      ri.is_primary = true → rj.is_primary = true → (0 : Int) = j) ∧
    ((sampleBackend.monitors.length : Int) ≤ (sampleBackend.primary_monitor_index : Int) →
      ∀ r, BrightnessBackend.get_monitor_info sampleBackend 0 = some r →
        r.is_primary = false)) :=
  ⟨by decide, by decide, C1_monitor_info_amended sampleBackend 0 (by decide) (by decide)⟩

theorem list_set_getElem?_self {α : Type} (l : List α) (p : Nat) (a : α)
    (h : l[p]? = some a) : l.set p a = l := by
  induction l generalizing p with
  | nil => simp at h
  | cons x xs ih =>
    cases p with
    | zero =>
      simp only [List.getElem?_cons_zero, Option.some.injEq] at h
      simp [List.set, h]
    | succ q =>
      simp only [List.getElem?_cons_succ] at h
      simp [List.set, ih q h]

/-- Full case analysis of `get_brightness` once the call has reached the
hardware stage (id parsed, mapped physical index within the hybrid count). -/
theorem get_brightness_cases (s : BackendState) (monitor_id : PyStr)
    (logical_index : Int) (p : Nat)
    (hparse : BrightnessBackend.id_to_index monitor_id = some logical_index)
    (h0 : 0 ≤ BrightnessBackend.apply_monitor_swap s logical_index)
    (hlt : BrightnessBackend.apply_monitor_swap s logical_index
      < (BrightnessBackend.get_monitor_count s : Int))
    (hp : p = (BrightnessBackend.apply_monitor_swap s logical_index).toNat) :
    (∃ m, s.monitors[p]? = some m ∧ m.getOk = true ∧
      BrightnessBackend.get_brightness s monitor_id = (some m.lum, [HwEvent.ddcGet p])) ∨
    (∃ m, s.monitors[p]? = some m ∧ m.getOk = false ∧
      ((∃ d, s.sbc_displays[p]? = some d ∧
          (BrightnessBackend.get_brightness s monitor_id).2
            = [HwEvent.ddcGet p, HwEvent.wmiGet p]) ∨
        (s.sbc_displays.length ≤ p ∧
          BrightnessBackend.get_brightness s monitor_id = (none, [HwEvent.ddcGet p])))) ∨
    (s.monitors.length ≤ p ∧ p < s.sbc_displays.length ∧
      (BrightnessBackend.get_brightness s monitor_id).2 = [HwEvent.wmiGet p]) := by
  have hcond : ¬(BrightnessBackend.apply_monitor_swap s logical_index < 0 ∨
      (BrightnessBackend.get_monitor_count s : Int)
        ≤ BrightnessBackend.apply_monitor_swap s logical_index) := by omega
  have hpmax : p < max s.monitors.length s.sbc_displays.length := by
    rw [BrightnessBackend.get_monitor_count] at hlt
    omega
  have hred : BrightnessBackend.get_brightness s monitor_id =
      (if p < s.monitors.length then
        match ddcGetLuminance s p with
        | some b => (some b, [HwEvent.ddcGet p])
        | none =>
          let w := wmiGetStep s p
          (w.1, HwEvent.ddcGet p :: w.2)
       else wmiGetStep s p) := by
    rw [hp]
    simp only [BrightnessBackend.get_brightness, hparse]
    rw [if_neg hcond]
  by_cases hpm : p < s.monitors.length
  · obtain ⟨m, hm⟩ : ∃ m, s.monitors[p]? = some m :=
      ⟨s.monitors[p], List.getElem?_eq_getElem hpm⟩
    have hddc : ddcGetLuminance s p = if m.getOk then some m.lum else none := by
      rw [ddcGetLuminance, hm]
    cases hg : m.getOk with
    | true =>
      left
      refine ⟨m, hm, hg, ?_⟩
      rw [hred, if_pos hpm, hddc, hg]
      simp
    | false =>
      right; left
      refine ⟨m, hm, hg, ?_⟩
      have hnone : ddcGetLuminance s p = none := by rw [hddc, hg]; simp
      by_cases hpw : p < s.sbc_displays.length
      · left
        obtain ⟨d, hd⟩ : ∃ d, s.sbc_displays[p]? = some d :=
          ⟨s.sbc_displays[p], List.getElem?_eq_getElem hpw⟩
        refine ⟨d, hd, ?_⟩
        rw [hred, if_pos hpm, hnone]
        rw [wmiGetStep, if_pos hpw]
        rcases hw : wmiGetBrightness s p with _ | lst <;> simp
      · right
        refine ⟨by omega, ?_⟩
        rw [hred, if_pos hpm, hnone]
        rw [wmiGetStep, if_neg hpw]
  · right; right
    have hpw : p < s.sbc_displays.length := by omega
    refine ⟨by omega, hpw, ?_⟩
    rw [hred, if_neg hpm]
    rw [wmiGetStep, if_pos hpw]
    rcases hw : wmiGetBrightness s p with _ | lst <;> simp

/-- Full case analysis of `set_brightness` once the call has reached the
hardware stage: DDC/CI first, WMI fallback second, with the exact success
flag, resulting hardware state, and attempt trace in every case. -/
theorem set_brightness_cases (s : BackendState) (monitor_id : PyStr)
    (logical_index : Int) (v : Int) (p : Nat) (vc : Int)
    (hparse : BrightnessBackend.id_to_index monitor_id = some logical_index)
    (h0 : 0 ≤ BrightnessBackend.apply_monitor_swap s logical_index)
    (hlt : BrightnessBackend.apply_monitor_swap s logical_index
      < (BrightnessBackend.get_monitor_count s : Int))
    (hp : p = (BrightnessBackend.apply_monitor_swap s logical_index).toNat)
    (hvc : vc = max 0 (min 100 v)) :
    (∃ m, s.monitors[p]? = some m ∧ m.setOk = true ∧
      BrightnessBackend.set_brightness s monitor_id v =
        (true, { s with monitors := s.monitors.set p { m with lum := vc } },
          [HwEvent.ddcSet p vc])) ∨
    (∃ m, s.monitors[p]? = some m ∧ m.setOk = false ∧
      ((∃ d, s.sbc_displays[p]? = some d ∧ d.setOk = true ∧
          BrightnessBackend.set_brightness s monitor_id v =
            (true, { s with sbc_displays := s.sbc_displays.set p { d with lum := vc } },
              [HwEvent.ddcSet p vc, HwEvent.wmiSet p vc])) ∨
        (∃ d, s.sbc_displays[p]? = some d ∧ d.setOk = false ∧
          BrightnessBackend.set_brightness s monitor_id v =
            (false, s, [HwEvent.ddcSet p vc, HwEvent.wmiSet p vc])) ∨
        (s.sbc_displays.length ≤ p ∧
          BrightnessBackend.set_brightness s monitor_id v =
            (false, s, [HwEvent.ddcSet p vc])))) ∨
    (s.monitors.length ≤ p ∧ p < s.sbc_displays.length ∧
      ((∃ d, s.sbc_displays[p]? = some d ∧ d.setOk = true ∧
          BrightnessBackend.set_brightness s monitor_id v =
            (true, { s with sbc_displays := s.sbc_displays.set p { d with lum := vc } },
              [HwEvent.wmiSet p vc])) ∨
        (∃ d, s.sbc_displays[p]? = some d ∧ d.setOk = false ∧
          BrightnessBackend.set_brightness s monitor_id v =
            (false, s, [HwEvent.wmiSet p vc])))) := by
  have hcond : ¬(BrightnessBackend.apply_monitor_swap s logical_index < 0 ∨
      (BrightnessBackend.get_monitor_count s : Int)
        ≤ BrightnessBackend.apply_monitor_swap s logical_index) := by omega
  have hpmax : p < max s.monitors.length s.sbc_displays.length := by
    rw [BrightnessBackend.get_monitor_count] at hlt
    omega
  have hred : BrightnessBackend.set_brightness s monitor_id v =
      (if p < s.monitors.length then
        match ddcSetLuminance s p vc with
        | some s' => (true, s', [HwEvent.ddcSet p vc])
        | none =>
          let w := wmiSetStep s p vc
          (w.1, w.2.1, HwEvent.ddcSet p vc :: w.2.2)
       else wmiSetStep s p vc) := by
    rw [hp, hvc]
    simp only [BrightnessBackend.set_brightness, hparse]
    rw [if_neg hcond]
  by_cases hpm : p < s.monitors.length
  · obtain ⟨m, hm⟩ : ∃ m, s.monitors[p]? = some m :=
      ⟨s.monitors[p], List.getElem?_eq_getElem hpm⟩
    have hddc : ddcSetLuminance s p vc =
        if m.setOk then some { s with monitors := s.monitors.set p { m with lum := vc } }
        else none := by
      rw [ddcSetLuminance, hm]
    cases hms : m.setOk with
    | true =>
      left
      refine ⟨m, hm, hms, ?_⟩
      rw [hred, if_pos hpm, hddc, hms]
      simp
    | false =>
      right; left
      refine ⟨m, hm, hms, ?_⟩
      have hnone : ddcSetLuminance s p vc = none := by rw [hddc, hms]; simp
      by_cases hpw : p < s.sbc_displays.length
      · obtain ⟨d, hd⟩ : ∃ d, s.sbc_displays[p]? = some d :=
          ⟨s.sbc_displays[p], List.getElem?_eq_getElem hpw⟩
        have hwmi : wmiSetBrightness s p vc =
            if d.setOk then
              some { s with sbc_displays := s.sbc_displays.set p { d with lum := vc } }
            else none := by
          rw [wmiSetBrightness, hd]
        cases hds : d.setOk with
        | true =>
          left
          refine ⟨d, hd, hds, ?_⟩
          rw [hred, if_pos hpm, hnone]
          rw [wmiSetStep, if_pos hpw, hwmi, hds]
          simp
        | false =>
          right; left
          refine ⟨d, hd, hds, ?_⟩
          rw [hred, if_pos hpm, hnone]
          rw [wmiSetStep, if_pos hpw, hwmi, hds]
          simp
      · right; right
        refine ⟨by omega, ?_⟩
        rw [hred, if_pos hpm, hnone]
        rw [wmiSetStep, if_neg hpw]
  · right; right
    have hpw : p < s.sbc_displays.length := by omega
    obtain ⟨d, hd⟩ : ∃ d, s.sbc_displays[p]? = some d :=
      ⟨s.sbc_displays[p], List.getElem?_eq_getElem hpw⟩
    have hwmi : wmiSetBrightness s p vc =
        if d.setOk then
          some { s with sbc_displays := s.sbc_displays.set p { d with lum := vc } }
        else none := by
      rw [wmiSetBrightness, hd]
    refine ⟨by omega, hpw, ?_⟩
    cases hds : d.setOk with
    | true =>
      left
      refine ⟨d, hd, hds, ?_⟩
      rw [hred, if_neg hpm]
      rw [wmiSetStep, if_pos hpw, hwmi, hds]
      simp
    | false =>
      right
      refine ⟨d, hd, hds, ?_⟩
      rw [hred, if_neg hpm]
      rw [wmiSetStep, if_pos hpw, hwmi, hds]
      simp

theorem lt_of_getElem?_some {α : Type} {l : List α} {p : Nat} {a : α}
    (h : l[p]? = some a) : p < l.length := by
  by_contra hc
  rw [List.getElem?_eq_none (by omega)] at h
  cases h

/-- C2: on every hardware-stage call of `get_brightness`/`set_brightness`,
DDC/CI is attempted before the WMI fallback, a DDC/CI success returns
immediately without consulting the fallback, the fallback is consulted only
when DDC/CI raised for that physical index or the index is outside the
DDC/CI list, and each protocol is guarded by its own list bounds. -/
theorem C2_protocol_fallback_order (s : BackendState) (monitor_id : PyStr)
    (logical_index : Int) (p : Nat)
    (hparse : BrightnessBackend.id_to_index monitor_id = some logical_index)
    (h0 : 0 ≤ BrightnessBackend.apply_monitor_swap s logical_index)
    (hlt : BrightnessBackend.apply_monitor_swap s logical_index
      < (BrightnessBackend.get_monitor_count s : Int))
    (hp : p = (BrightnessBackend.apply_monitor_swap s logical_index).toNat) :
    (∀ m, s.monitors[p]? = some m → m.getOk = true →
      BrightnessBackend.get_brightness s monitor_id = (some m.lum, [HwEvent.ddcGet p])) ∧
    (∀ q, HwEvent.wmiGet q ∈ (BrightnessBackend.get_brightness s monitor_id).2 →
      q = p ∧ p < s.sbc_displays.length ∧
      (s.monitors.length ≤ p ∨ ∃ m, s.monitors[p]? = some m ∧ m.getOk = false)) ∧
    (∀ q, HwEvent.ddcGet q ∈ (BrightnessBackend.get_brightness s monitor_id).2 →
      q = p ∧ p < s.monitors.length) ∧
    ((BrightnessBackend.get_brightness s monitor_id).2 = [HwEvent.ddcGet p] ∨
      (BrightnessBackend.get_brightness s monitor_id).2 = [HwEvent.wmiGet p] ∨
      (BrightnessBackend.get_brightness s monitor_id).2
        = [HwEvent.ddcGet p, HwEvent.wmiGet p]) ∧
    (∀ v : Int, ∀ m, s.monitors[p]? = some m → m.setOk = true →
      (BrightnessBackend.set_brightness s monitor_id v).1 = true ∧
      (BrightnessBackend.set_brightness s monitor_id v).2.2
        = [HwEvent.ddcSet p (max 0 (min 100 v))]) ∧
    (∀ v : Int, ∀ q w, HwEvent.wmiSet q w ∈ (BrightnessBackend.set_brightness s monitor_id v).2.2 →
      q = p ∧ p < s.sbc_displays.length ∧
      (s.monitors.length ≤ p ∨ ∃ m, s.monitors[p]? = some m ∧ m.setOk = false)) ∧
    (∀ v : Int, ∀ q w, HwEvent.ddcSet q w ∈ (BrightnessBackend.set_brightness s monitor_id v).2.2 →
      q = p ∧ p < s.monitors.length) ∧
    (∀ v : Int, (BrightnessBackend.set_brightness s monitor_id v).2.2
        = [HwEvent.ddcSet p (max 0 (min 100 v))] ∨
      (BrightnessBackend.set_brightness s monitor_id v).2.2
        = [HwEvent.wmiSet p (max 0 (min 100 v))] ∨
      (BrightnessBackend.set_brightness s monitor_id v).2.2
        = [HwEvent.ddcSet p (max 0 (min 100 v)), HwEvent.wmiSet p (max 0 (min 100 v))]) := by
  have hget := get_brightness_cases s monitor_id logical_index p hparse h0 hlt hp
  refine ⟨?_, ?_, ?_, ?_, ?_, ?_, ?_, ?_⟩
  · intro m0 hm0 hg0
    rcases hget with ⟨m, hm, hg, heq⟩ | ⟨m, hm, hg, _⟩ | ⟨hle, _, _⟩
    · rw [hm0] at hm
      injection hm with hmm
      subst hmm
      exact heq
    · rw [hm0] at hm
      injection hm with hmm
      subst hmm
      rw [hg0] at hg
      cases hg
    · rw [List.getElem?_eq_none (by omega)] at hm0
      cases hm0
  · intro q hq
    rcases hget with ⟨m, hm, hg, heq⟩ | ⟨m, hm, hg, hrest⟩ | ⟨hle, hpw, htr⟩
    · rw [heq] at hq
      simp at hq
    · rcases hrest with ⟨d, hd, htr⟩ | ⟨hsk, heq⟩
      · rw [htr] at hq
        simp at hq
        exact ⟨hq, lt_of_getElem?_some hd, Or.inr ⟨m, hm, hg⟩⟩
      · rw [heq] at hq
        simp at hq
    · rw [htr] at hq
      simp at hq
      exact ⟨hq, hpw, Or.inl hle⟩
  · intro q hq
    rcases hget with ⟨m, hm, hg, heq⟩ | ⟨m, hm, hg, hrest⟩ | ⟨hle, hpw, htr⟩
    · rw [heq] at hq
      simp at hq
      exact ⟨hq, lt_of_getElem?_some hm⟩
    · rcases hrest with ⟨d, hd, htr⟩ | ⟨hsk, heq⟩
      · rw [htr] at hq
        simp at hq
        exact ⟨hq, lt_of_getElem?_some hm⟩
      · rw [heq] at hq
        simp at hq
        exact ⟨hq, lt_of_getElem?_some hm⟩
    · rw [htr] at hq
      simp at hq
  · rcases hget with ⟨m, hm, hg, heq⟩ | ⟨m, hm, hg, hrest⟩ | ⟨hle, hpw, htr⟩
    · left
      rw [heq]
    · rcases hrest with ⟨d, hd, htr⟩ | ⟨hsk, heq⟩
      · right; right
        exact htr
      · left
        rw [heq]
    · right; left
      exact htr
  · intro v m0 hm0 hms0
    rcases set_brightness_cases s monitor_id logical_index v p (max 0 (min 100 v))
        hparse h0 hlt hp rfl with
      ⟨m, hm, hms, heq⟩ | ⟨m, hm, hms, _⟩ | ⟨hle, _, _⟩
    · rw [heq]
      exact ⟨rfl, rfl⟩
    · rw [hm0] at hm
      injection hm with hmm
      subst hmm
      rw [hms0] at hms
      cases hms
    · rw [List.getElem?_eq_none (by omega)] at hm0
      cases hm0
  · intro v q w hq
    rcases set_brightness_cases s monitor_id logical_index v p (max 0 (min 100 v))
        hparse h0 hlt hp rfl with
      ⟨m, hm, hms, heq⟩ | ⟨m, hm, hms, hrest⟩ | ⟨hle, hpw, hrest⟩
    · rw [heq] at hq
      simp at hq
    · rcases hrest with ⟨d, hd, hds, heq⟩ | ⟨d, hd, hds, heq⟩ | ⟨hsk, heq⟩
      · rw [heq] at hq
        simp at hq
        exact ⟨hq.1, lt_of_getElem?_some hd, Or.inr ⟨m, hm, hms⟩⟩
      · rw [heq] at hq
        simp at hq
        exact ⟨hq.1, lt_of_getElem?_some hd, Or.inr ⟨m, hm, hms⟩⟩
      · rw [heq] at hq
        simp at hq
    · rcases hrest with ⟨d, hd, hds, heq⟩ | ⟨d, hd, hds, heq⟩
      · rw [heq] at hq
        simp at hq
        exact ⟨hq.1, hpw, Or.inl hle⟩
      · rw [heq] at hq
        simp at hq
        exact ⟨hq.1, hpw, Or.inl hle⟩
  · intro v q w hq
    rcases set_brightness_cases s monitor_id logical_index v p (max 0 (min 100 v))
        hparse h0 hlt hp rfl with
      ⟨m, hm, hms, heq⟩ | ⟨m, hm, hms, hrest⟩ | ⟨hle, hpw, hrest⟩
    · rw [heq] at hq
      simp at hq
      exact ⟨hq.1, lt_of_getElem?_some hm⟩
    · rcases hrest with ⟨d, hd, hds, heq⟩ | ⟨d, hd, hds, heq⟩ | ⟨hsk, heq⟩ <;>
        rw [heq] at hq <;> simp at hq <;> exact ⟨hq.1, lt_of_getElem?_some hm⟩
    · rcases hrest with ⟨d, hd, hds, heq⟩ | ⟨d, hd, hds, heq⟩ <;>
        rw [heq] at hq <;> simp at hq
  · intro v
    rcases set_brightness_cases s monitor_id logical_index v p (max 0 (min 100 v))
        hparse h0 hlt hp rfl with
      ⟨m, hm, hms, heq⟩ | ⟨m, hm, hms, hrest⟩ | ⟨hle, hpw, hrest⟩
    · left
      rw [heq]
    · rcases hrest with ⟨d, hd, hds, heq⟩ | ⟨d, hd, hds, heq⟩ | ⟨hsk, heq⟩
      · right; right
        rw [heq]
      · right; right
        rw [heq]
      · left
        rw [heq]
    · rcases hrest with ⟨d, hd, hds, heq⟩ | ⟨d, hd, hds, heq⟩
      · right; left
        rw [heq]
      · right; left
        rw [heq]

/-- Witness for C2: a concrete hardware-stage call where DDC/CI succeeds
at physical index 1 (logical 0 under the swap) and short-circuits. -/
theorem C2_protocol_fallback_order_witness :
    BrightnessBackend.get_brightness sampleBackend ("MONITOR_0".toList)
      = (some 40, [HwEvent.ddcGet 1]) :=
  (C2_protocol_fallback_order sampleBackend ("MONITOR_0".toList) 0 1
    (by decide) (by decide) (by decide) (by decide)).1
    ⟨40, true, false⟩ (by decide) rfl

/-!
## Configuration manager (`src/config/config_manager.py`) — typed view

The brightness-relevant slice of the persisted configuration, as used by
the specific getters/setters (`global_brightness`, `sync_mode`,
`set_monitor_brightness`, `auto_start`).
-/

/-- Association-list lookup keyed by monitor id. -/
def lookupAssoc {α : Type} : List (PyStr × α) → PyStr → Option α
  | [], _ => none
  | (k, v) :: rest, key => if k = key then some v else lookupAssoc rest key

/-- Association-list update: replace an existing key in place, else append,
as assignment into a Python dict behaves. -/
def setAssoc {α : Type} : List (PyStr × α) → PyStr → α → List (PyStr × α)
  | [], key, v => [(key, v)]
  | (k, w) :: rest, key, v =>
    if k = key then (k, v) :: rest else (k, w) :: setAssoc rest key v

theorem lookupAssoc_setAssoc_self {α : Type} (m : List (PyStr × α)) (k : PyStr) (v : α) :
    lookupAssoc (setAssoc m k v) k = some v := by
  induction m with
  | nil => simp [setAssoc, lookupAssoc]
  | cons kv rest ih =>
    obtain ⟨k', w⟩ := kv
    by_cases hk : k' = k
    · simp [setAssoc, hk, lookupAssoc]
    · simp [setAssoc, hk, lookupAssoc, ih]

theorem lookupAssoc_setAssoc_other {α : Type} (m : List (PyStr × α)) (k k' : PyStr) (v : α)
    (h : k ≠ k') : lookupAssoc (setAssoc m k v) k' = lookupAssoc m k' := by
  induction m with
  | nil => simp [setAssoc, lookupAssoc, h]
  | cons kv rest ih =>
    obtain ⟨k0, w⟩ := kv
    by_cases hk : k0 = k
    · subst hk
      simp [setAssoc, lookupAssoc, h, ih]
    · simp [setAssoc, hk, lookupAssoc, ih]

/-- The brightness-relevant persisted configuration state. -/
structure ConfigState where
  sync_mode : Bool
  global_brightness : Int
  per_monitor : List (PyStr × Int)
  auto_start : Bool
deriving DecidableEq, Repr

/-- Model of the `ConfigManager.global_brightness` setter (clamps first). -/
def ConfigManager.set_global_brightness (c : ConfigState) (value : Int) : ConfigState :=
  { c with global_brightness := max 0 (min 100 value) }

/-- Model of `ConfigManager.set_monitor_brightness` (clamps first). -/
def ConfigManager.set_monitor_brightness (c : ConfigState) (monitor_id : PyStr)
    (value : Int) : ConfigState :=
  { c with per_monitor := setAssoc c.per_monitor monitor_id (max 0 (min 100 value)) }

/-- Model of the `ConfigManager.sync_mode` setter. -/
def ConfigManager.set_sync_mode (c : ConfigState) (value : Bool) : ConfigState :=
  { c with sync_mode := value }

/-- Model of the `ConfigManager.auto_start` setter. -/
def ConfigManager.set_auto_start (c : ConfigState) (value : Bool) : ConfigState :=
  { c with auto_start := value }

/-- Model of `ConfigManager.get_monitor_brightness`. -/
def ConfigManager.get_monitor_brightness (c : ConfigState) (monitor_id : PyStr) : Option Int :=
  lookupAssoc c.per_monitor monitor_id

/-- The hardcoded defaults of `ConfigManager._create_default_config`
(brightness-relevant fields): sync on, global brightness 50, empty
per-monitor map, auto-start off. -/
def ConfigManager.defaultConfigState : ConfigState :=
  { sync_mode := true
    global_brightness := 50
    per_monitor := []
    auto_start := false }

/-!
## Brightness controller (`src/core/brightness_controller.py`)
-/

/-- Combined state seen by the controller: backend plus persisted config. -/
structure ControllerState where
  backend : BackendState
  config : ConfigState
deriving DecidableEq, Repr

/-- Whether a controller call returned normally or raised an exception. -/
inductive Outcome where
  | normal
  | raised
deriving DecidableEq, Repr

/-- The `for monitor in monitors:` loop of
`BrightnessController._set_all_brightness_internal`.  Iterating over a
`None` entry of `get_all_monitors_info` raises (`None.supports_brightness`
is an `AttributeError`), which aborts the loop with the state reached so
far. -/
def BrightnessController.set_all_loop (value : Int) :
    List (Option MonitorInfo) → ControllerState → Outcome × ControllerState × List HwEvent
  | [], st => (Outcome.normal, st, [])
  | none :: _, st => (Outcome.raised, st, [])
  | some monitor :: rest, st =>
    if monitor.supports_brightness then
      let r := BrightnessBackend.set_brightness st.backend monitor.id value
      let st' : ControllerState :=
        { backend := r.2.1
          config :=
            if r.1 then ConfigManager.set_monitor_brightness st.config monitor.id value
            else st.config }
      let out := BrightnessController.set_all_loop value rest st'
      (out.1, out.2.1, r.2.2 ++ out.2.2)
    else BrightnessController.set_all_loop value rest st

/-- Model of `BrightnessController._set_all_brightness_internal`. -/
def BrightnessController.set_all_brightness_internal (st : ControllerState) (value : Int)
    (save_global : Bool) : Outcome × ControllerState × List HwEvent :=
  let monitors := BrightnessBackend.get_all_monitors_info st.backend
  let out := BrightnessController.set_all_loop value monitors st
  match out with
  | (Outcome.normal, st', tr) =>
    if save_global then
      (Outcome.normal,
        { st' with config := ConfigManager.set_global_brightness st'.config value }, tr)
    else (Outcome.normal, st', tr)
  | (Outcome.raised, st', tr) => (Outcome.raised, st', tr)

/-- Model of `BrightnessController.set_global_brightness`: clamp, persist
the global value, then propagate to all monitors. -/
def BrightnessController.set_global_brightness (st : ControllerState) (value : Int) :
    Outcome × ControllerState × List HwEvent :=
  let value := max 0 (min 100 value)
  let st1 : ControllerState :=
    { st with config := ConfigManager.set_global_brightness st.config value }
  BrightnessController.set_all_brightness_internal st1 value false

/-- Model of `BrightnessController.toggle_sync_mode`: persist the mode and,
when enabling, propagate the stored global brightness (without re-saving
the global value). -/
def BrightnessController.toggle_sync_mode (st : ControllerState) (enabled : Bool) :
    Outcome × ControllerState × List HwEvent :=
  let st1 : ControllerState :=
    { st with config := ConfigManager.set_sync_mode st.config enabled }
  if enabled then
    BrightnessController.set_all_brightness_internal st1 st1.config.global_brightness false
  else (Outcome.normal, st1, [])


/-- The propagation loop never touches the global brightness, the sync
mode, or the auto-start flag (it writes only per-monitor entries). -/
theorem set_all_loop_config_fields (value : Int) :
    ∀ (lst : List (Option MonitorInfo)) (st : ControllerState),
      ((BrightnessController.set_all_loop value lst st).2.1).config.global_brightness
          = st.config.global_brightness ∧
      ((BrightnessController.set_all_loop value lst st).2.1).config.sync_mode
          = st.config.sync_mode ∧
      ((BrightnessController.set_all_loop value lst st).2.1).config.auto_start
          = st.config.auto_start := by
  intro lst
  induction lst with
  | nil => intro st; exact ⟨rfl, rfl, rfl⟩
  | cons e rest ih =>
    intro st
    cases e with
    | none => exact ⟨rfl, rfl, rfl⟩
    | some monitor =>
      rw [BrightnessController.set_all_loop]
      by_cases hs : monitor.supports_brightness = true
      · rw [if_pos hs]
        dsimp only
        refine ⟨?_, ?_, ?_⟩
        · rw [(ih _).1]
          by_cases hr : (BrightnessBackend.set_brightness st.backend monitor.id value).1 = true <;>
            simp [hr, ConfigManager.set_monitor_brightness]
        · rw [(ih _).2.1]
          by_cases hr : (BrightnessBackend.set_brightness st.backend monitor.id value).1 = true <;>
            simp [hr, ConfigManager.set_monitor_brightness]
        · rw [(ih _).2.2]
          by_cases hr : (BrightnessBackend.set_brightness st.backend monitor.id value).1 = true <;>
            simp [hr, ConfigManager.set_monitor_brightness]
      · rw [if_neg hs]
        exact ih st

theorem clamp_idem (v : Int) :
    max 0 (min 100 (max 0 (min 100 v))) = max 0 (min 100 v) := by omega

/-- C6: both `BrightnessBackend.set_brightness` and
`BrightnessController.set_global_brightness` clamp the input into [0,100]
before any hardware call or persistence: the call behaves exactly as the
call with the clamped value, every hardware write in the trace carries the
clamped value, the persisted global value is the clamped value, and the
clamp sends -10 to 0 and 150 to 100. -/
theorem C6_clamping (s : BackendState) (monitor_id : PyStr) (st : ControllerState) (v : Int) :
    BrightnessBackend.set_brightness s monitor_id v
      = BrightnessBackend.set_brightness s monitor_id (max 0 (min 100 v)) ∧
    (∀ p w, (HwEvent.ddcSet p w ∈ (BrightnessBackend.set_brightness s monitor_id v).2.2 ∨
        HwEvent.wmiSet p w ∈ (BrightnessBackend.set_brightness s monitor_id v).2.2) →
      w = max 0 (min 100 v)) ∧
    BrightnessController.set_global_brightness st v
      = BrightnessController.set_global_brightness st (max 0 (min 100 v)) ∧
    (BrightnessController.set_global_brightness st v).2.1.config.global_brightness
      = max 0 (min 100 v) ∧
    max 0 (min 100 (-10 : Int)) = 0 ∧ max 0 (min 100 (150 : Int)) = 100 := by
  have hseteq : BrightnessBackend.set_brightness s monitor_id v
      = BrightnessBackend.set_brightness s monitor_id (max 0 (min 100 v)) := by
    simp only [BrightnessBackend.set_brightness, clamp_idem]
  have htrace : ∀ p w,
      (HwEvent.ddcSet p w ∈ (BrightnessBackend.set_brightness s monitor_id v).2.2 ∨
        HwEvent.wmiSet p w ∈ (BrightnessBackend.set_brightness s monitor_id v).2.2) →
      w = max 0 (min 100 v) := by
    intro p w hw
    rw [BrightnessBackend.set_brightness] at hw
    cases hpar : BrightnessBackend.id_to_index monitor_id with
    | none =>
      rw [hpar] at hw
      rcases hw with h | h <;> simp at h
    | some l =>
      rw [hpar] at hw
      dsimp only at hw
      split at hw
      · rcases hw with h | h <;> simp at h
      · split at hw
        · split at hw
          · rcases hw with h | h <;> simp at h
            exact h.2
          · rw [wmiSetStep] at hw
            split at hw
            · split at hw
              · rcases hw with h | h <;> simp at h
                · exact h.2
                · exact h.2
              · rcases hw with h | h <;> simp at h
                · exact h.2
                · exact h.2
            · rcases hw with h | h <;> simp at h
              exact h.2
        · rw [wmiSetStep] at hw
          split at hw
          · split at hw
            · rcases hw with h | h <;> simp at h
              exact h.2
            · rcases hw with h | h <;> simp at h
              exact h.2
          · rcases hw with h | h <;> simp at h
  have hctrl : BrightnessController.set_global_brightness st v
      = BrightnessController.set_global_brightness st (max 0 (min 100 v)) := by
    simp only [BrightnessController.set_global_brightness, clamp_idem]
  refine ⟨hseteq, htrace, hctrl, ?_, by omega, by omega⟩
  rw [BrightnessController.set_global_brightness]
  rw [BrightnessController.set_all_brightness_internal]
  rcases hout : BrightnessController.set_all_loop (max 0 (min 100 v))
      (BrightnessBackend.get_all_monitors_info st.backend)
      { st with config := ConfigManager.set_global_brightness st.config (max 0 (min 100 v)) }
    with ⟨o, st', tr⟩
  have hg := (set_all_loop_config_fields (max 0 (min 100 v))
      (BrightnessBackend.get_all_monitors_info st.backend)
      { st with config := ConfigManager.set_global_brightness st.config (max 0 (min 100 v)) }).1
  rw [hout] at hg
  have hg' : st'.config.global_brightness
      = max 0 (min 100 (max 0 (min 100 v))) := by
    simpa [ConfigManager.set_global_brightness] using hg
  cases o
  · show st'.config.global_brightness = max 0 (min 100 v)
    omega
  · show st'.config.global_brightness = max 0 (min 100 v)
    omega

/-- Witness for C6: at a concrete state, the calls with -10 and the calls
with 0 coincide, and the stored global value for input 150 is 100. -/
theorem C6_clamping_witness :
    BrightnessBackend.set_brightness sampleBackend ("MONITOR_0".toList) (-10)
      = BrightnessBackend.set_brightness sampleBackend ("MONITOR_0".toList)
          (max 0 (min 100 (-10))) ∧
    max 0 (min 100 (-10 : Int)) = 0 :=
  ⟨(C6_clamping sampleBackend ("MONITOR_0".toList)
      ⟨sampleBackend, ConfigManager.defaultConfigState⟩ (-10)).1,
    (C6_clamping sampleBackend ("MONITOR_0".toList)
      ⟨sampleBackend, ConfigManager.defaultConfigState⟩ (-10)).2.2.2.2.1⟩

/-- The configuration mutations offered by `ConfigManager`. -/
inductive ConfigOp where
  | setGlobal (v : Int)
  | setMon (monitor_id : PyStr) (v : Int)
  | setSync (b : Bool)
  | setAuto (b : Bool)

/-- Apply one `ConfigManager` mutation. -/
def ConfigManager.applyOp (c : ConfigState) : ConfigOp → ConfigState
  | ConfigOp.setGlobal v => ConfigManager.set_global_brightness c v
  | ConfigOp.setMon monitor_id v => ConfigManager.set_monitor_brightness c monitor_id v
  | ConfigOp.setSync b => ConfigManager.set_sync_mode c b
  | ConfigOp.setAuto b => ConfigManager.set_auto_start c b

/-- A configuration reached from the defaults by a sequence of mutations. -/
def ConfigManager.runOps (ops : List ConfigOp) : ConfigState :=
  ops.foldl ConfigManager.applyOp ConfigManager.defaultConfigState

/-- All persisted brightness values (global and per-monitor) lie in [0,100]. -/
def ConfigState.brightnessInv (c : ConfigState) : Prop :=
  (0 ≤ c.global_brightness ∧ c.global_brightness ≤ 100) ∧
  ∀ kv ∈ c.per_monitor, 0 ≤ kv.2 ∧ kv.2 ≤ 100

theorem mem_setAssoc {α : Type} (m : List (PyStr × α)) (k : PyStr) (v : α) :
    ∀ kv ∈ setAssoc m k v, kv ∈ m ∨ kv = (k, v) := by
  induction m with
  | nil =>
    intro kv hkv
    simp [setAssoc] at hkv
    simp [hkv]
  | cons kw rest ih =>
    obtain ⟨k0, w⟩ := kw
    intro kv hkv
    rw [setAssoc] at hkv
    by_cases hk : k0 = k
    · rw [if_pos hk] at hkv
      rcases List.mem_cons.mp hkv with h | h
      · subst hk
        right
        exact h
      · left
        exact List.mem_cons_of_mem _ h
    · rw [if_neg hk] at hkv
      rcases List.mem_cons.mp hkv with h | h
      · left
        simp [h]
      · rcases ih kv h with h' | h'
        · left
          exact List.mem_cons_of_mem _ h'
        · right
          exact h'

theorem applyOp_preserves_inv (c : ConfigState) (op : ConfigOp)
    (h : ConfigState.brightnessInv c) :
    ConfigState.brightnessInv (ConfigManager.applyOp c op) := by
  cases op with
  | setGlobal v =>
    refine ⟨⟨by simp [ConfigManager.applyOp, ConfigManager.set_global_brightness],
      by simp [ConfigManager.applyOp, ConfigManager.set_global_brightness]⟩, ?_⟩
    intro kv hkv
    exact h.2 kv hkv
  | setMon monitor_id v =>
    refine ⟨h.1, ?_⟩
    intro kv hkv
    rcases mem_setAssoc c.per_monitor monitor_id (max 0 (min 100 v)) kv hkv with h' | h'
    · exact h.2 kv h'
    · rw [h']
      constructor <;> simp <;> omega
  | setSync b => exact ⟨h.1, h.2⟩
  | setAuto b => exact ⟨h.1, h.2⟩

/-- C7: each brightness store clamps before writing (global and
per-monitor), hence every configuration reachable from the defaults by
`ConfigManager` mutations has all its persisted brightness values in
[0,100]. -/
theorem C7_stored_brightness_clamped :
    (∀ c v, (ConfigManager.set_global_brightness c v).global_brightness
        = max 0 (min 100 v)) ∧
    (∀ c monitor_id v,
      lookupAssoc (ConfigManager.set_monitor_brightness c monitor_id v).per_monitor monitor_id
        = some (max 0 (min 100 v))) ∧
    ∀ ops : List ConfigOp, ConfigState.brightnessInv (ConfigManager.runOps ops) := by
  refine ⟨fun c v => rfl,
    fun c monitor_id v => lookupAssoc_setAssoc_self _ _ _, ?_⟩
  intro ops
  have hgen : ∀ (l : List ConfigOp) (c : ConfigState), ConfigState.brightnessInv c →
      ConfigState.brightnessInv (l.foldl ConfigManager.applyOp c) := by
    intro l
    induction l with
    | nil => intro c hc; exact hc
    | cons op rest ih =>
      intro c hc
      exact ih _ (applyOp_preserves_inv c op hc)
  refine hgen ops ConfigManager.defaultConfigState
    ⟨⟨by simp [ConfigManager.defaultConfigState], by simp [ConfigManager.defaultConfigState]⟩, ?_⟩
  intro kv hkv
  simp [ConfigManager.defaultConfigState] at hkv

/-- Witness for C7: a concrete mutation sequence with out-of-range inputs
still yields an in-range configuration. -/
theorem C7_stored_brightness_clamped_witness :
    ConfigState.brightnessInv (ConfigManager.runOps
      [ConfigOp.setGlobal 150, ConfigOp.setMon ("MONITOR_0".toList) (-10)]) :=
  C7_stored_brightness_clamped.2.2
    [ConfigOp.setGlobal 150, ConfigOp.setMon ("MONITOR_0".toList) (-10)]

/-!
## Configuration manager — persisted-file view (`load_config` and
`_validate_and_migrate`)

A parsed JSON value and the settings record as a key-value list.  An
unreadable, unparseable, or missing file is `none` (every exception path
of `load_config` funnels into `_create_default_config`).  The template
file, when present and parseable, is the parsed `config_template.json`.
-/

/-- A parsed JSON value. -/
inductive JVal where
  | s (v : PyStr)
  | i (v : Int)
  | b (v : Bool)
  | arr (vs : List JVal)
  | obj (m : List (PyStr × JVal))
  | null

/-- A parsed settings record (a JSON object, insertion-ordered). -/
abbrev JCfg := List (PyStr × JVal)

/-- `ConfigManager.CONFIG_VERSION`. -/
def ConfigManager.CONFIG_VERSION : PyStr := "1.0".toList

/-- The hardcoded fallback defaults of `ConfigManager._create_default_config`. -/
def ConfigManager.hardcodedDefault : JCfg :=
  [("version".toList, JVal.s ConfigManager.CONFIG_VERSION),
   ("sync_mode".toList, JVal.b true),
   ("global_brightness".toList, JVal.i 50),
   ("per_monitor".toList, JVal.obj []),
   ("auto_start".toList, JVal.b false),
   ("last_monitors".toList, JVal.arr [])]

/-- Model of `ConfigManager._create_default_config`: the parsed template
when it exists and parses, else the hardcoded defaults. -/
def ConfigManager.create_default_config (template : Option JCfg) : JCfg :=
  match template with
  | some t => t
  | none => ConfigManager.hardcodedDefault

/-- Whether `config.get("version", "0.0")` equals `CONFIG_VERSION`. -/
def isCurrentVersion : JVal → Bool
  | JVal.s v => v = ConfigManager.CONFIG_VERSION
  | _ => false

/-- The back-fill loop of `_validate_and_migrate`
(`for key in default_config: if key not in config: ...`). -/
def ConfigManager.backfill (defaults : JCfg) (config : JCfg) : JCfg :=
  defaults.foldl
    (fun acc kv => if (lookupAssoc acc kv.1).isSome then acc else setAssoc acc kv.1 kv.2)
    config

/-- Model of `ConfigManager._validate_and_migrate`. -/
def ConfigManager.validate_and_migrate (template : Option JCfg) (config : JCfg) : JCfg :=
  let config_version := (lookupAssoc config ("version".toList)).getD (JVal.s ("0.0".toList))
  let c1 :=
    if isCurrentVersion config_version then config
    else setAssoc config ("version".toList) (JVal.s ConfigManager.CONFIG_VERSION)
  ConfigManager.backfill (ConfigManager.create_default_config template) c1

/-- Model of `ConfigManager.load_config`: a readable, parseable file is
validated and migrated; anything else yields the defaults. -/
def ConfigManager.load_config (template : Option JCfg) (file : Option JCfg) : JCfg :=
  match file with
  | none => ConfigManager.create_default_config template
  | some config => ConfigManager.validate_and_migrate template config

theorem lookupAssoc_isSome_of_mem {α : Type} {l : List (PyStr × α)} {kv : PyStr × α}
    (h : kv ∈ l) : (lookupAssoc l kv.1).isSome = true := by
  induction l with
  | nil => cases h
  | cons kw rest ih =>
    rcases List.mem_cons.mp h with h' | h'
    · subst h'
      simp [lookupAssoc]
    · obtain ⟨k0, w⟩ := kw
      by_cases hk : k0 = kv.1
      · simp [lookupAssoc, hk]
      · simp [lookupAssoc, hk, ih h']

theorem backfill_lookup_isSome {defaults : JCfg} :
    ∀ (acc : JCfg) (k : PyStr), (lookupAssoc acc k).isSome = true →
      lookupAssoc (ConfigManager.backfill defaults acc) k = lookupAssoc acc k := by
  induction defaults with
  | nil => intro acc k _; rfl
  | cons kv rest ih =>
    intro acc k hk
    rw [ConfigManager.backfill, List.foldl_cons]
    by_cases hpresent : (lookupAssoc acc kv.1).isSome = true
    · rw [if_pos hpresent]
      exact ih acc k hk
    · rw [if_neg hpresent]
      have hne : kv.1 ≠ k := by
        intro he
        rw [he] at hpresent
        exact hpresent hk
      have hset : lookupAssoc (setAssoc acc kv.1 kv.2) k = lookupAssoc acc k :=
        lookupAssoc_setAssoc_other _ _ _ _ hne
      have hacc' : (lookupAssoc (setAssoc acc kv.1 kv.2) k).isSome = true := by
        rw [hset]
        exact hk
      exact (ih _ k hacc').trans hset

theorem backfill_default_keys_present {defaults : JCfg} :
    ∀ (acc : JCfg), ∀ kv ∈ defaults,
      (lookupAssoc (ConfigManager.backfill defaults acc) kv.1).isSome = true := by
  induction defaults with
  | nil => intro acc kv h; cases h
  | cons kv0 rest ih =>
    intro acc kv hkv
    rw [ConfigManager.backfill, List.foldl_cons, ← ConfigManager.backfill]
    by_cases hpresent : (lookupAssoc acc kv0.1).isSome = true
    · rw [if_pos hpresent]
      rcases List.mem_cons.mp hkv with h' | h'
      · subst h'
        rw [backfill_lookup_isSome acc kv.1 hpresent]
        exact hpresent
      · exact ih acc kv h'
    · rw [if_neg hpresent]
      have hnow : (lookupAssoc (setAssoc acc kv0.1 kv0.2) kv0.1).isSome = true := by
        rw [lookupAssoc_setAssoc_self]
        rfl
      rcases List.mem_cons.mp hkv with h' | h'
      · subst h'
        rw [backfill_lookup_isSome _ kv.1 hnow]
        exact hnow
      · exact ih _ kv h'

theorem backfill_fills_missing {defaults : JCfg} :
    ∀ (acc : JCfg) (k : PyStr), lookupAssoc acc k = none →
      (∃ kv, kv ∈ defaults ∧ kv.1 = k) →
      ∃ kv', kv' ∈ defaults ∧ kv'.1 = k ∧
        lookupAssoc (ConfigManager.backfill defaults acc) k = some kv'.2 := by
  induction defaults with
  | nil =>
    intro acc k _ h
    rcases h with ⟨kv, hm, _⟩
    cases hm
  | cons kv0 rest ih =>
    intro acc k hnone hex
    rw [ConfigManager.backfill, List.foldl_cons, ← ConfigManager.backfill]
    by_cases hpresent : (lookupAssoc acc kv0.1).isSome = true
    · rw [if_pos hpresent]
      have hne : kv0.1 ≠ k := by
        intro he
        rw [he, hnone] at hpresent
        simp at hpresent
      obtain ⟨kv, hm, hk⟩ := hex
      have hmrest : kv ∈ rest := by
        rcases List.mem_cons.mp hm with h' | h'
        · exact absurd (h' ▸ hk) hne
        · exact h'
      obtain ⟨kv', hm', hk', hl⟩ := ih acc k hnone ⟨kv, hmrest, hk⟩
      exact ⟨kv', List.mem_cons_of_mem _ hm', hk', hl⟩
    · rw [if_neg hpresent]
      by_cases hke : kv0.1 = k
      · have hself := lookupAssoc_setAssoc_self acc kv0.1 kv0.2
        have hS : (lookupAssoc (setAssoc acc kv0.1 kv0.2) kv0.1).isSome = true := by
          rw [hself]
          rfl
        refine ⟨kv0, List.mem_cons_self _ _, hke, ?_⟩
        rw [← hke, backfill_lookup_isSome _ _ hS, hself]
      · have hacc' : lookupAssoc (setAssoc acc kv0.1 kv0.2) k = none := by
          rw [lookupAssoc_setAssoc_other _ _ _ _ hke]
          exact hnone
        obtain ⟨kv, hm, hk⟩ := hex
        have hmrest : kv ∈ rest := by
          rcases List.mem_cons.mp hm with h' | h'
          · exact absurd (h' ▸ hk) hke
          · exact h'
        obtain ⟨kv', hm', hk', hl⟩ := ih _ k hacc' ⟨kv, hmrest, hk⟩
        exact ⟨kv', List.mem_cons_of_mem _ hm', hk', hl⟩

/-- The record after the version stamp of `_validate_and_migrate`
(the `config["version"] = self.CONFIG_VERSION` step, when taken). -/
theorem validate_version_stamp (template : Option JCfg) (config : JCfg) :
    ∃ c1 : JCfg,
      ConfigManager.validate_and_migrate template config
        = ConfigManager.backfill (ConfigManager.create_default_config template) c1 ∧
      lookupAssoc c1 ("version".toList) = some (JVal.s ConfigManager.CONFIG_VERSION) ∧
      (∀ k, k ≠ "version".toList → lookupAssoc c1 k = lookupAssoc config k) := by
  rw [ConfigManager.validate_and_migrate]
  by_cases hv : isCurrentVersion
      ((lookupAssoc config ("version".toList)).getD (JVal.s ("0.0".toList))) = true
  · refine ⟨config, by rw [if_pos hv], ?_, fun k _ => rfl⟩
    cases hl : lookupAssoc config ("version".toList) with
    | none =>
      rw [hl] at hv
      simp only [Option.getD_none] at hv
      exact absurd hv (by decide)
    | some jv =>
      rw [hl] at hv
      simp only [Option.getD_some] at hv
      cases jv with
      | s w =>
        simp only [isCurrentVersion, decide_eq_true_eq] at hv
        rw [hv]
      | i w => exact absurd hv (by simp [isCurrentVersion])
      | b w => exact absurd hv (by simp [isCurrentVersion])
      | arr w => exact absurd hv (by simp [isCurrentVersion])
      | obj w => exact absurd hv (by simp [isCurrentVersion])
      | null => exact absurd hv (by simp [isCurrentVersion])
  · refine ⟨setAssoc config ("version".toList) (JVal.s ConfigManager.CONFIG_VERSION),
      by rw [if_neg hv], lookupAssoc_setAssoc_self _ _ _, ?_⟩
    intro k hk
    exact lookupAssoc_setAssoc_other _ _ _ _ (Ne.symm hk)

/-- C8: loading always produces a configuration — a missing/unreadable/
unparseable file yields the defaults, every default key is present after
the back-fill, a non-current version value is replaced by the current
version, other present keys are left unchanged, and missing non-version
default keys are filled with a default entry's value. -/
theorem C8_load_config_total (template : Option JCfg) (file : Option JCfg) :
    (file = none → ConfigManager.load_config template file
        = ConfigManager.create_default_config template) ∧
    (∀ kv ∈ ConfigManager.create_default_config template,
      (lookupAssoc (ConfigManager.load_config template file) kv.1).isSome = true) ∧
    (∀ c, file = some c →
      lookupAssoc (ConfigManager.load_config template file) ("version".toList)
        = some (JVal.s ConfigManager.CONFIG_VERSION)) ∧
    (∀ c, file = some c → ∀ k, k ≠ "version".toList →
      (lookupAssoc c k).isSome = true →
      lookupAssoc (ConfigManager.load_config template file) k = lookupAssoc c k) ∧
    (∀ c, file = some c → ∀ kv ∈ ConfigManager.create_default_config template,
      kv.1 ≠ "version".toList → lookupAssoc c kv.1 = none →
      ∃ kv', kv' ∈ ConfigManager.create_default_config template ∧ kv'.1 = kv.1 ∧
        lookupAssoc (ConfigManager.load_config template file) kv.1 = some kv'.2) := by
  refine ⟨?_, ?_, ?_, ?_, ?_⟩
  · intro h
    rw [h]
    rfl
  · intro kv hkv
    cases file with
    | none => exact lookupAssoc_isSome_of_mem hkv
    | some c =>
      show (lookupAssoc (ConfigManager.validate_and_migrate template c) kv.1).isSome = true
      obtain ⟨c1, heq, _, _⟩ := validate_version_stamp template c
      rw [heq]
      exact backfill_default_keys_present c1 kv hkv
  · intro c hc
    rw [hc]
    show lookupAssoc (ConfigManager.validate_and_migrate template c) ("version".toList)
        = some (JVal.s ConfigManager.CONFIG_VERSION)
    obtain ⟨c1, heq, hver, _⟩ := validate_version_stamp template c
    rw [heq]
    have hS : (lookupAssoc c1 ("version".toList)).isSome = true := by
      rw [hver]
      rfl
    rw [backfill_lookup_isSome _ _ hS, hver]
  · intro c hc k hk hkp
    rw [hc]
    show lookupAssoc (ConfigManager.validate_and_migrate template c) k = lookupAssoc c k
    obtain ⟨c1, heq, _, hother⟩ := validate_version_stamp template c
    rw [heq]
    have hc1 : lookupAssoc c1 k = lookupAssoc c k := hother k hk
    have hS : (lookupAssoc c1 k).isSome = true := by
      rw [hc1]
      exact hkp
    rw [backfill_lookup_isSome _ _ hS, hc1]
  · intro c hc kv hkv hkne hnone
    rw [hc]
    show ∃ kv', kv' ∈ ConfigManager.create_default_config template ∧ kv'.1 = kv.1 ∧
      lookupAssoc (ConfigManager.validate_and_migrate template c) kv.1 = some kv'.2
    obtain ⟨c1, heq, _, hother⟩ := validate_version_stamp template c
    rw [heq]
    have hc1 : lookupAssoc c1 kv.1 = none := by
      rw [hother kv.1 hkne]
      exact hnone
    exact backfill_fills_missing c1 kv.1 hc1 ⟨kv, hkv, rfl⟩

/-- Witness for C8: a concrete stale-version file with an unknown key is
normalized — version restamped, other keys kept, missing keys filled. -/
theorem C8_load_config_total_witness :
    lookupAssoc (ConfigManager.load_config none
        (some [("version".toList, JVal.s ("0.9".toList)),
               ("extra".toList, JVal.i 7)])) ("version".toList)
      = some (JVal.s ConfigManager.CONFIG_VERSION) ∧
    lookupAssoc (ConfigManager.load_config none
        (some [("version".toList, JVal.s ("0.9".toList)),
               ("extra".toList, JVal.i 7)])) ("extra".toList)
      = some (JVal.i 7) :=
  ⟨(C8_load_config_total none
      (some [("version".toList, JVal.s ("0.9".toList)),
             ("extra".toList, JVal.i 7)])).2.2.1 _ rfl,
    by
      have h := (C8_load_config_total none
        (some [("version".toList, JVal.s ("0.9".toList)),
               ("extra".toList, JVal.i 7)])).2.2.2.1 _ rfl
        ("extra".toList) (by decide) (by decide)
      rw [h]
      rfl⟩

/-!
## Monitor manager listener (`src/core/monitor_manager.py`)

The listener-visible state of a `MonitorManager` instance: the `_running`
flag set by `listen_display_change`/`stop_listening`, and the hidden
window handle `_hwnd` owned by the message-pump thread.
-/

/-- The listener state of a `MonitorManager` instance. -/
structure ManagerState where
  running : Bool
  hwnd : Option Int
deriving DecidableEq, Repr

/-- State of a freshly constructed `MonitorManager`. -/
def MonitorManager.initial : ManagerState :=
  { running := false, hwnd := none }

/-- Model of `MonitorManager.listen_display_change`: unconditionally sets
`_running = True` and starts a fresh message-pump thread. -/
def MonitorManager.listen_display_change (s : ManagerState) : ManagerState :=
  { s with running := true }

/-- Model of `MonitorManager.stop_listening`: sets `_running = False`
(and posts `WM_QUIT` when a window handle exists). -/
def MonitorManager.stop_listening (s : ManagerState) : ManagerState :=
  { s with running := false }

/-- Whether `stop_listening` posts a `WM_QUIT` message. -/
def MonitorManager.stop_posts_quit (s : ManagerState) : Bool :=
  s.hwnd.isSome

/-- The public listener operations of `MonitorManager`. -/
inductive MgrOp where
  | listen
  | stop
deriving DecidableEq, Repr

/-- Apply one listener operation. -/
def MonitorManager.step (s : ManagerState) : MgrOp → ManagerState
  | MgrOp.listen => MonitorManager.listen_display_change s
  | MgrOp.stop => MonitorManager.stop_listening s

/-- C9 counterexample: after `listen, stop`, the instance is stopped, yet a
later `listen_display_change` puts the same instance back into the
Listening state — the listener can be restarted, contradicting the claim
that no later call can return the instance to Listening. -/
theorem C9_counterexample :
    (List.foldl MonitorManager.step MonitorManager.initial
      [MgrOp.listen, MgrOp.stop]).running = false ∧
    (List.foldl MonitorManager.step MonitorManager.initial
      [MgrOp.listen, MgrOp.stop, MgrOp.listen]).running = true := by
  constructor <;> rfl

/-- C9 amended: `stop_listening` is idempotent and a no-op when not
listening (no state change, and no `WM_QUIT` posted when no window
exists), it always leaves the instance not listening, and the only
operation that puts the instance into the Listening state is
`listen_display_change` — but `listen_display_change` does re-enter
Listening even after `stop_listening` (Stopped is not terminal). -/
theorem C9_listener_state_machine_amended (s : ManagerState) :
    MonitorManager.stop_listening (MonitorManager.stop_listening s)
      = MonitorManager.stop_listening s ∧
    (MonitorManager.stop_listening s).running = false ∧
    (s.running = false → MonitorManager.stop_listening s = s) ∧
    (s.hwnd = none → MonitorManager.stop_posts_quit s = false) ∧
    (MonitorManager.listen_display_change s).running = true ∧
    (∀ op : MgrOp, (MonitorManager.step s op).running = true → op = MgrOp.listen) ∧
    (MonitorManager.step (MonitorManager.stop_listening s) MgrOp.listen).running = true := by
  refine ⟨rfl, rfl, ?_, ?_, rfl, ?_, rfl⟩
  · intro h
    cases s with
    | mk r w =>
      simp only at h
      rw [MonitorManager.stop_listening, h]
  · intro h
    rw [MonitorManager.stop_posts_quit, h]
    rfl
  · intro op h
    cases op with
    | listen => rfl
    | stop =>
      rw [MonitorManager.step] at h
      cases h

/-- Witness for the amended C9 at a concrete idle manager state. -/
theorem C9_listener_state_machine_amended_witness :
    MonitorManager.initial.running = false ∧
    MonitorManager.initial.hwnd = none ∧
    MonitorManager.stop_listening MonitorManager.initial = MonitorManager.initial ∧
    MonitorManager.stop_posts_quit MonitorManager.initial = false :=
  ⟨rfl, rfl,
    (C9_listener_state_machine_amended MonitorManager.initial).2.2.1 rfl,
    (C9_listener_state_machine_amended MonitorManager.initial).2.2.2.1 rfl⟩

/-!
## Hardware-shape similarity

`set_brightness` changes only stored luminances, never the list shapes,
capability flags, primary index or swap flag.  `Similar` captures that
equivalence; all structural backend observations (counts, capability,
monitor records, set success and traces) are invariant under it.
-/

/-- The failure-behaviour flags of a DDC/CI monitor (everything but `lum`). -/
def DDCMonitor.flags (m : DDCMonitor) : Bool × Bool := (m.getOk, m.setOk)

/-- The failure-behaviour flags of a WMI display (everything but `lum`). -/
def WMIDisplay.wflags (d : WMIDisplay) : Bool × Bool × Bool := (d.getOk, d.getEmpty, d.setOk)

/-- Two backend states with the same hardware shape. -/
def Similar (a b : BackendState) : Prop :=
  a.monitors.map DDCMonitor.flags = b.monitors.map DDCMonitor.flags ∧
  a.sbc_displays.map WMIDisplay.wflags = b.sbc_displays.map WMIDisplay.wflags ∧
  a.primary_monitor_index = b.primary_monitor_index ∧
  a.SWAP_MONITOR_ORDER = b.SWAP_MONITOR_ORDER

theorem Similar_refl (a : BackendState) : Similar a a := ⟨rfl, rfl, rfl, rfl⟩

theorem Similar_trans {a b c : BackendState} (h1 : Similar a b) (h2 : Similar b c) :
    Similar a c :=
  ⟨h1.1.trans h2.1, h1.2.1.trans h2.2.1, h1.2.2.1.trans h2.2.2.1, h1.2.2.2.trans h2.2.2.2⟩

theorem Similar.monitors_length {a b : BackendState} (h : Similar a b) :
    a.monitors.length = b.monitors.length := by
  have := congrArg List.length h.1
  simpa using this

theorem Similar.sbc_length {a b : BackendState} (h : Similar a b) :
    a.sbc_displays.length = b.sbc_displays.length := by
  have := congrArg List.length h.2.1
  simpa using this

theorem Similar.mon_flags_cases {a b : BackendState} (h : Similar a b) (p : Nat) :
    (a.monitors[p]? = none ∧ b.monitors[p]? = none) ∨
    (∃ ma mb, a.monitors[p]? = some ma ∧ b.monitors[p]? = some mb ∧
      ma.getOk = mb.getOk ∧ ma.setOk = mb.setOk) := by
  have hmap : (a.monitors[p]?).map DDCMonitor.flags
      = (b.monitors[p]?).map DDCMonitor.flags := by
    rw [← List.getElem?_map, ← List.getElem?_map, h.1]
  cases ha : a.monitors[p]? with
  | none =>
    cases hb : b.monitors[p]? with
    | none => exact Or.inl ⟨rfl, rfl⟩
    | some mb =>
      rw [ha, hb] at hmap
      cases hmap
  | some ma =>
    cases hb : b.monitors[p]? with
    | none =>
      rw [ha, hb] at hmap
      cases hmap
    | some mb =>
      rw [ha, hb] at hmap
      simp only [Option.map_some', DDCMonitor.flags, Option.some.injEq, Prod.mk.injEq] at hmap
      exact Or.inr ⟨ma, mb, rfl, rfl, hmap.1, hmap.2⟩

theorem Similar.sbc_flags_cases {a b : BackendState} (h : Similar a b) (p : Nat) :
    (a.sbc_displays[p]? = none ∧ b.sbc_displays[p]? = none) ∨
    (∃ da db, a.sbc_displays[p]? = some da ∧ b.sbc_displays[p]? = some db ∧
      da.getOk = db.getOk ∧ da.getEmpty = db.getEmpty ∧ da.setOk = db.setOk) := by
  have hmap : (a.sbc_displays[p]?).map WMIDisplay.wflags
      = (b.sbc_displays[p]?).map WMIDisplay.wflags := by
    rw [← List.getElem?_map, ← List.getElem?_map, h.2.1]
  cases ha : a.sbc_displays[p]? with
  | none =>
    cases hb : b.sbc_displays[p]? with
    | none => exact Or.inl ⟨rfl, rfl⟩
    | some db =>
      rw [ha, hb] at hmap
      cases hmap
  | some da =>
    cases hb : b.sbc_displays[p]? with
    | none =>
      rw [ha, hb] at hmap
      cases hmap
    | some db =>
      rw [ha, hb] at hmap
      simp only [Option.map_some', WMIDisplay.wflags, Option.some.injEq, Prod.mk.injEq] at hmap
      exact Or.inr ⟨da, db, rfl, rfl, hmap.1, hmap.2.1, hmap.2.2⟩

theorem map_set_comm {α β : Type} (f : α → β) (l : List α) (n : Nat) (a : α) :
    (l.set n a).map f = (l.map f).set n (f a) := by
  induction l generalizing n with
  | nil => rfl
  | cons x xs ih =>
    cases n with
    | zero => rfl
    | succ m => simp [List.set, ih]

theorem Similar.swap_congr {a b : BackendState} (h : Similar a b) (i : Int) :
    BrightnessBackend.apply_monitor_swap a i = BrightnessBackend.apply_monitor_swap b i := by
  rw [BrightnessBackend.apply_monitor_swap, BrightnessBackend.apply_monitor_swap, h.2.2.2]

theorem Similar.count_congr {a b : BackendState} (h : Similar a b) :
    BrightnessBackend.get_monitor_count a = BrightnessBackend.get_monitor_count b := by
  rw [BrightnessBackend.get_monitor_count, BrightnessBackend.get_monitor_count,
    h.monitors_length, h.sbc_length]

theorem wmiSetStep_state (s : BackendState) (p : Nat) (v : Int) :
    (wmiSetStep s p v).2.1 = s ∨
    (∃ d, s.sbc_displays[p]? = some d ∧
      (wmiSetStep s p v).2.1
        = { s with sbc_displays := s.sbc_displays.set p { d with lum := v } }) := by
  rw [wmiSetStep]
  by_cases hpw : p < s.sbc_displays.length
  · rw [if_pos hpw]
    cases hd : s.sbc_displays[p]? with
    | none =>
      have hw : wmiSetBrightness s p v = none := by rw [wmiSetBrightness, hd]
      rw [hw]
      exact Or.inl rfl
    | some d =>
      have hstep : wmiSetBrightness s p v
          = if d.setOk = true
            then some { s with sbc_displays := s.sbc_displays.set p { d with lum := v } }
            else none := by
        rw [wmiSetBrightness, hd]
      by_cases hds : d.setOk = true
      · rw [hstep, if_pos hds]
        exact Or.inr ⟨d, rfl, rfl⟩
      · rw [hstep, if_neg hds]
        exact Or.inl rfl
  · rw [if_neg hpw]
    exact Or.inl rfl

theorem set_brightness_state (s : BackendState) (monitor_id : PyStr) (v : Int) :
    (BrightnessBackend.set_brightness s monitor_id v).2.1 = s ∨
    (∃ p m, s.monitors[p]? = some m ∧
      (BrightnessBackend.set_brightness s monitor_id v).2.1
        = { s with monitors := s.monitors.set p { m with lum := max 0 (min 100 v) } }) ∨
    (∃ p d, s.sbc_displays[p]? = some d ∧
      (BrightnessBackend.set_brightness s monitor_id v).2.1
        = { s with sbc_displays := s.sbc_displays.set p { d with lum := max 0 (min 100 v) } }) := by
  cases hpar : BrightnessBackend.id_to_index monitor_id with
  | none =>
    left
    simp only [BrightnessBackend.set_brightness, hpar]
  | some l =>
    simp only [BrightnessBackend.set_brightness, hpar]
    split
    · left
      rfl
    · by_cases hpm : (BrightnessBackend.apply_monitor_swap s l).toNat < s.monitors.length
      · rw [if_pos hpm]
        cases hm : s.monitors[(BrightnessBackend.apply_monitor_swap s l).toNat]? with
        | none =>
          have hdd : ddcSetLuminance s (BrightnessBackend.apply_monitor_swap s l).toNat
              (max 0 (min 100 v)) = none := by
            rw [ddcSetLuminance, hm]
          rw [hdd]
          rcases wmiSetStep_state s (BrightnessBackend.apply_monitor_swap s l).toNat
              (max 0 (min 100 v)) with hw | ⟨d, hd, hw⟩
          · exact Or.inl hw
          · exact Or.inr (Or.inr ⟨_, d, hd, hw⟩)
        | some m =>
          have hstep : ddcSetLuminance s (BrightnessBackend.apply_monitor_swap s l).toNat
              (max 0 (min 100 v))
              = if m.setOk = true
                then some
                    { s with
                      monitors := s.monitors.set
                          (BrightnessBackend.apply_monitor_swap s l).toNat
                          { m with lum := max 0 (min 100 v) } }
                else none := by
            rw [ddcSetLuminance, hm]
          by_cases hms : m.setOk = true
          · rw [hstep, if_pos hms]
            exact Or.inr (Or.inl ⟨_, m, hm, rfl⟩)
          · rw [hstep, if_neg hms]
            rcases wmiSetStep_state s (BrightnessBackend.apply_monitor_swap s l).toNat
                (max 0 (min 100 v)) with hw | ⟨d, hd, hw⟩
            · exact Or.inl hw
            · exact Or.inr (Or.inr ⟨_, d, hd, hw⟩)
      · rw [if_neg hpm]
        rcases wmiSetStep_state s (BrightnessBackend.apply_monitor_swap s l).toNat
            (max 0 (min 100 v)) with hw | ⟨d, hd, hw⟩
        · exact Or.inl hw
        · exact Or.inr (Or.inr ⟨_, d, hd, hw⟩)

theorem set_brightness_similar (s : BackendState) (monitor_id : PyStr) (v : Int) :
    Similar s (BrightnessBackend.set_brightness s monitor_id v).2.1 := by
  rcases set_brightness_state s monitor_id v with h | ⟨p, m, hm, h⟩ | ⟨p, d, hd, h⟩
  · rw [h]
    exact Similar_refl s
  · rw [h]
    refine ⟨?_, rfl, rfl, rfl⟩
    show s.monitors.map DDCMonitor.flags
        = (s.monitors.set p { m with lum := max 0 (min 100 v) }).map DDCMonitor.flags
    rw [map_set_comm]
    have hfl : DDCMonitor.flags { m with lum := max 0 (min 100 v) } = DDCMonitor.flags m := rfl
    rw [hfl]
    have hmm : (s.monitors.map DDCMonitor.flags)[p]? = some (DDCMonitor.flags m) := by
      rw [List.getElem?_map, hm]
      rfl
    exact (list_set_getElem?_self _ p _ hmm).symm
  · rw [h]
    refine ⟨rfl, ?_, rfl, rfl⟩
    show s.sbc_displays.map WMIDisplay.wflags
        = (s.sbc_displays.set p { d with lum := max 0 (min 100 v) }).map WMIDisplay.wflags
    rw [map_set_comm]
    have hfl : WMIDisplay.wflags { d with lum := max 0 (min 100 v) } = WMIDisplay.wflags d := rfl
    rw [hfl]
    have hdd : (s.sbc_displays.map WMIDisplay.wflags)[p]? = some (WMIDisplay.wflags d) := by
      rw [List.getElem?_map, hd]
      rfl
    exact (list_set_getElem?_self _ p _ hdd).symm

theorem Similar.wmi_check_congr {a b : BackendState} (h : Similar a b) (p : Nat) :
    (if p < a.sbc_displays.length then
      match wmiGetBrightness a p with
      | some lst => decide (0 < lst.length)
      | none => false
    else false) =
    (if p < b.sbc_displays.length then
      match wmiGetBrightness b p with
      | some lst => decide (0 < lst.length)
      | none => false
    else false) := by
  rw [← h.sbc_length]
  by_cases hpw : p < a.sbc_displays.length
  · rw [if_pos hpw, if_pos hpw]
    rcases h.sbc_flags_cases p with ⟨ha', hb'⟩ | ⟨da, db, ha', hb', hg, he, hs⟩
    · rw [show wmiGetBrightness a p = none from by rw [wmiGetBrightness, ha'],
        show wmiGetBrightness b p = none from by rw [wmiGetBrightness, hb']]
    · have hga : wmiGetBrightness a p
          = if da.getOk = true then some (if da.getEmpty = true then [] else [da.lum])
            else none := by
        rw [wmiGetBrightness, ha']
      have hgb : wmiGetBrightness b p
          = if db.getOk = true then some (if db.getEmpty = true then [] else [db.lum])
            else none := by
        rw [wmiGetBrightness, hb']
      rw [hga, hgb, hg, he]
      by_cases hgg : db.getOk = true
      · rw [if_pos hgg, if_pos hgg]
        by_cases hee : db.getEmpty = true
        · rw [if_pos hee, if_pos hee]
        · rw [if_neg hee, if_neg hee]
          rfl
      · rw [if_neg hgg, if_neg hgg]
  · rw [if_neg hpw, if_neg hpw]

theorem Similar.check_support_congr {a b : BackendState} (h : Similar a b) (i : Int) :
    BrightnessBackend.check_brightness_support a i
      = BrightnessBackend.check_brightness_support b i := by
  simp only [BrightnessBackend.check_brightness_support]
  rw [← h.swap_congr i, ← h.count_congr, ← h.monitors_length]
  by_cases hc : BrightnessBackend.apply_monitor_swap a i < 0 ∨
      (BrightnessBackend.get_monitor_count a : Int) ≤ BrightnessBackend.apply_monitor_swap a i
  · rw [if_pos hc, if_pos hc]
  · rw [if_neg hc, if_neg hc]
    have hwmi := h.wmi_check_congr (BrightnessBackend.apply_monitor_swap a i).toNat
    by_cases hpm : (BrightnessBackend.apply_monitor_swap a i).toNat < a.monitors.length
    · rw [if_pos hpm, if_pos hpm]
      rcases h.mon_flags_cases (BrightnessBackend.apply_monitor_swap a i).toNat with
        ⟨ha', hb'⟩ | ⟨ma, mb, ha', hb', hg, hs⟩
      · rw [show ddcGetLuminance a (BrightnessBackend.apply_monitor_swap a i).toNat = none from
            by rw [ddcGetLuminance, ha'],
          show ddcGetLuminance b (BrightnessBackend.apply_monitor_swap a i).toNat = none from
            by rw [ddcGetLuminance, hb']]
        exact hwmi
      · have hga : ddcGetLuminance a (BrightnessBackend.apply_monitor_swap a i).toNat
            = if ma.getOk = true then some ma.lum else none := by
          rw [ddcGetLuminance, ha']
        have hgb : ddcGetLuminance b (BrightnessBackend.apply_monitor_swap a i).toNat
            = if mb.getOk = true then some mb.lum else none := by
          rw [ddcGetLuminance, hb']
        rw [hga, hgb, hg]
        by_cases hgg : mb.getOk = true
        · rw [if_pos hgg, if_pos hgg]
        · rw [if_neg hgg, if_neg hgg]
          exact hwmi
    · rw [if_neg hpm, if_neg hpm]
      exact hwmi

theorem Similar.monitor_info_congr {a b : BackendState} (h : Similar a b) (i : Int) :
    BrightnessBackend.get_monitor_info a i = BrightnessBackend.get_monitor_info b i := by
  simp only [BrightnessBackend.get_monitor_info]
  rw [← h.swap_congr i, ← h.monitors_length, ← h.2.2.1, h.check_support_congr i]

theorem Similar.all_info_congr {a b : BackendState} (h : Similar a b) :
    BrightnessBackend.get_all_monitors_info a = BrightnessBackend.get_all_monitors_info b := by
  rw [BrightnessBackend.get_all_monitors_info, BrightnessBackend.get_all_monitors_info,
    ← h.monitors_length]
  exact List.map_congr_left (fun j _ => h.monitor_info_congr (Int.ofNat j))

theorem Similar.wmiSetStep_congr {a b : BackendState} (h : Similar a b) (p : Nat) (v : Int) :
    (wmiSetStep a p v).1 = (wmiSetStep b p v).1 ∧
    (wmiSetStep a p v).2.2 = (wmiSetStep b p v).2.2 := by
  rw [wmiSetStep, wmiSetStep, ← h.sbc_length]
  by_cases hpw : p < a.sbc_displays.length
  · rw [if_pos hpw, if_pos hpw]
    rcases h.sbc_flags_cases p with ⟨ha', hb'⟩ | ⟨da, db, ha', hb', hg, he, hs⟩
    · rw [show wmiSetBrightness a p v = none from by rw [wmiSetBrightness, ha'],
        show wmiSetBrightness b p v = none from by rw [wmiSetBrightness, hb']]
      exact ⟨rfl, rfl⟩
    · have hwa : wmiSetBrightness a p v
          = if da.setOk = true
            then some { a with sbc_displays := a.sbc_displays.set p { da with lum := v } }
            else none := by
        rw [wmiSetBrightness, ha']
      have hwb : wmiSetBrightness b p v
          = if db.setOk = true
            then some { b with sbc_displays := b.sbc_displays.set p { db with lum := v } }
            else none := by
        rw [wmiSetBrightness, hb']
      rw [hwa, hwb, hs]
      by_cases hss : db.setOk = true
      · rw [if_pos hss, if_pos hss]
        exact ⟨rfl, rfl⟩
      · rw [if_neg hss, if_neg hss]
        exact ⟨rfl, rfl⟩
  · rw [if_neg hpw, if_neg hpw]
    exact ⟨rfl, rfl⟩

theorem Similar.set_congr {a b : BackendState} (h : Similar a b) (monitor_id : PyStr) (v : Int) :
    (BrightnessBackend.set_brightness a monitor_id v).1
      = (BrightnessBackend.set_brightness b monitor_id v).1 ∧
    (BrightnessBackend.set_brightness a monitor_id v).2.2
      = (BrightnessBackend.set_brightness b monitor_id v).2.2 := by
  cases hpar : BrightnessBackend.id_to_index monitor_id with
  | none =>
    constructor <;> simp only [BrightnessBackend.set_brightness, hpar]
  | some l =>
    simp only [BrightnessBackend.set_brightness, hpar]
    rw [← h.swap_congr l, ← h.count_congr, ← h.monitors_length]
    by_cases hc : BrightnessBackend.apply_monitor_swap a l < 0 ∨
        (BrightnessBackend.get_monitor_count a : Int) ≤ BrightnessBackend.apply_monitor_swap a l
    · rw [if_pos hc, if_pos hc]
      exact ⟨rfl, rfl⟩
    · rw [if_neg hc, if_neg hc]
      have hW := h.wmiSetStep_congr (BrightnessBackend.apply_monitor_swap a l).toNat
        (max 0 (min 100 v))
      by_cases hpm : (BrightnessBackend.apply_monitor_swap a l).toNat < a.monitors.length
      · rw [if_pos hpm, if_pos hpm]
        rcases h.mon_flags_cases (BrightnessBackend.apply_monitor_swap a l).toNat with
          ⟨ha', hb'⟩ | ⟨ma, mb, ha', hb', hg, hs⟩
        · rw [List.getElem?_eq_getElem hpm] at ha'
          cases ha'
        · have hda : ddcSetLuminance a (BrightnessBackend.apply_monitor_swap a l).toNat
              (max 0 (min 100 v))
              = if ma.setOk = true
                then some
                    { a with
                      monitors := a.monitors.set
                          (BrightnessBackend.apply_monitor_swap a l).toNat
                          { ma with lum := max 0 (min 100 v) } }
                else none := by
            rw [ddcSetLuminance, ha']
          have hdb : ddcSetLuminance b (BrightnessBackend.apply_monitor_swap a l).toNat
              (max 0 (min 100 v))
              = if mb.setOk = true
                then some
                    { b with
                      monitors := b.monitors.set
                          (BrightnessBackend.apply_monitor_swap a l).toNat
                          { mb with lum := max 0 (min 100 v) } }
                else none := by
            rw [ddcSetLuminance, hb']
          rw [hda, hdb, hs]
          by_cases hss : mb.setOk = true
          · rw [if_pos hss, if_pos hss]
            exact ⟨rfl, rfl⟩
          · rw [if_neg hss, if_neg hss]
            exact ⟨hW.1, congrArg (List.cons _) hW.2⟩
      · rw [if_neg hpm, if_neg hpm]
        exact hW

theorem getElem?_set_self {α : Type} (l : List α) (q : Nat) (x : α) (h : q < l.length) :
    (l.set q x)[q]? = some x := by
  induction l generalizing q with
  | nil => simp at h
  | cons y ys ih =>
    cases q with
    | zero => simp [List.set]
    | succ n =>
      simp only [List.length_cons, Nat.add_lt_add_iff_right] at h
      simpa [List.set] using ih n h

theorem getElem?_set_ne {α : Type} (l : List α) (q p : Nat) (x : α) (h : q ≠ p) :
    (l.set q x)[p]? = l[p]? := by
  induction l generalizing q p with
  | nil => rfl
  | cons y ys ih =>
    cases q with
    | zero =>
      cases p with
      | zero => exact absurd rfl h
      | succ n => simp [List.set]
    | succ m =>
      cases p with
      | zero => simp [List.set]
      | succ n =>
        simp only [List.set, List.getElem?_cons_succ]
        exact ih m n (fun he => h (he ▸ rfl))

/-- The state after one successful-or-failed iteration of the loop body. -/
def loopStepState (value : Int) (monitor : MonitorInfo) (st : ControllerState) :
    ControllerState :=
  { backend := (BrightnessBackend.set_brightness st.backend monitor.id value).2.1
    config :=
      if (BrightnessBackend.set_brightness st.backend monitor.id value).1 then
        ConfigManager.set_monitor_brightness st.config monitor.id value
      else st.config }

theorem set_all_loop_cons_some (value : Int) (monitor : MonitorInfo)
    (rest : List (Option MonitorInfo)) (st : ControllerState) :
    BrightnessController.set_all_loop value (some monitor :: rest) st
      = if monitor.supports_brightness then
          ((BrightnessController.set_all_loop value rest (loopStepState value monitor st)).1,
            (BrightnessController.set_all_loop value rest (loopStepState value monitor st)).2.1,
            (BrightnessBackend.set_brightness st.backend monitor.id value).2.2
              ++ (BrightnessController.set_all_loop value rest
                    (loopStepState value monitor st)).2.2)
        else BrightnessController.set_all_loop value rest st := rfl

theorem set_all_loop_normal (value : Int) :
    ∀ (lst : List (Option MonitorInfo)) (st : ControllerState),
      (∀ e ∈ lst, e ≠ none) →
      (BrightnessController.set_all_loop value lst st).1 = Outcome.normal := by
  intro lst
  induction lst with
  | nil => intro st _; rfl
  | cons e rest ih =>
    intro st hnone
    cases e with
    | none => exact absurd rfl (hnone none (List.mem_cons_self _ _))
    | some monitor =>
      rw [set_all_loop_cons_some]
      have hrest : ∀ e ∈ rest, e ≠ none := fun e he => hnone e (List.mem_cons_of_mem _ he)
      by_cases hs : monitor.supports_brightness = true
      · rw [if_pos hs]
        exact ih _ hrest
      · rw [if_neg hs]
        exact ih _ hrest

theorem set_all_loop_similar (value : Int) :
    ∀ (lst : List (Option MonitorInfo)) (st : ControllerState),
      Similar st.backend ((BrightnessController.set_all_loop value lst st).2.1).backend := by
  intro lst
  induction lst with
  | nil => intro st; exact Similar_refl _
  | cons e rest ih =>
    intro st
    cases e with
    | none => exact Similar_refl _
    | some monitor =>
      rw [set_all_loop_cons_some]
      by_cases hs : monitor.supports_brightness = true
      · rw [if_pos hs]
        exact Similar_trans (set_brightness_similar st.backend monitor.id value)
          (ih (loopStepState value monitor st))
      · rw [if_neg hs]
        exact ih st

theorem set_all_loop_fail_unchanged (value : Int) (b0 : BackendState) :
    ∀ (lst : List (Option MonitorInfo)) (st : ControllerState),
      Similar b0 st.backend →
      ∀ k : PyStr, (BrightnessBackend.set_brightness b0 k value).1 = false →
        lookupAssoc ((BrightnessController.set_all_loop value lst st).2.1).config.per_monitor k
          = lookupAssoc st.config.per_monitor k := by
  intro lst
  induction lst with
  | nil => intro st _ k _; rfl
  | cons e rest ih =>
    intro st hS k hfail
    cases e with
    | none => rfl
    | some monitor =>
      rw [set_all_loop_cons_some]
      by_cases hs : monitor.supports_brightness = true
      · rw [if_pos hs]
        have hS' : Similar b0 (loopStepState value monitor st).backend :=
          Similar_trans hS (set_brightness_similar st.backend monitor.id value)
        have hstep := ih (loopStepState value monitor st) hS' k hfail
        rw [hstep]
        show lookupAssoc (loopStepState value monitor st).config.per_monitor k
            = lookupAssoc st.config.per_monitor k
        rw [loopStepState]
        by_cases hsucc : (BrightnessBackend.set_brightness st.backend monitor.id value).1 = true
        · have hne : monitor.id ≠ k := by
            intro he
            rw [he] at hsucc
            rw [(hS.set_congr k value).1] at hfail
            rw [hfail] at hsucc
            cases hsucc
          rw [if_pos hsucc]
          exact lookupAssoc_setAssoc_other _ _ _ _ hne
        · rw [if_neg hsucc]
      · rw [if_neg hs]
        exact ih st hS k hfail

theorem set_all_loop_written_values (value : Int) :
    ∀ (lst : List (Option MonitorInfo)) (st : ControllerState) (k : PyStr),
      lookupAssoc ((BrightnessController.set_all_loop value lst st).2.1).config.per_monitor k
          = lookupAssoc st.config.per_monitor k ∨
      lookupAssoc ((BrightnessController.set_all_loop value lst st).2.1).config.per_monitor k
          = some (max 0 (min 100 value)) := by
  intro lst
  induction lst with
  | nil => intro st k; exact Or.inl rfl
  | cons e rest ih =>
    intro st k
    cases e with
    | none => exact Or.inl rfl
    | some monitor =>
      rw [set_all_loop_cons_some]
      by_cases hs : monitor.supports_brightness = true
      · rw [if_pos hs]
        rcases ih (loopStepState value monitor st) k with h | h
        · rw [h]
          show lookupAssoc (loopStepState value monitor st).config.per_monitor k
              = lookupAssoc st.config.per_monitor k ∨ _
          rw [loopStepState]
          by_cases hsucc :
              (BrightnessBackend.set_brightness st.backend monitor.id value).1 = true
          · rw [if_pos hsucc]
            by_cases hk : monitor.id = k
            · right
              rw [← hk]
              exact lookupAssoc_setAssoc_self _ _ _
            · left
              exact lookupAssoc_setAssoc_other _ _ _ _ hk
          · rw [if_neg hsucc]
            exact Or.inl rfl
        · exact Or.inr h
      · rw [if_neg hs]
        exact ih st k

theorem set_all_loop_success_recorded (value : Int) (b0 : BackendState) :
    ∀ (lst : List (Option MonitorInfo)) (st : ControllerState),
      Similar b0 st.backend →
      (∀ e ∈ lst, e ≠ none) →
      ∀ r : MonitorInfo, some r ∈ lst → r.supports_brightness = true →
        (BrightnessBackend.set_brightness b0 r.id value).1 = true →
        lookupAssoc ((BrightnessController.set_all_loop value lst st).2.1).config.per_monitor r.id
          = some (max 0 (min 100 value)) := by
  intro lst
  induction lst with
  | nil =>
    intro st _ _ r hr
    cases hr
  | cons e rest ih =>
    intro st hS hnone r hr hsup hsucc
    cases e with
    | none => exact absurd rfl (hnone none (List.mem_cons_self _ _))
    | some monitor =>
      have hrest : ∀ e ∈ rest, e ≠ none := fun e he => hnone e (List.mem_cons_of_mem _ he)
      rw [set_all_loop_cons_some]
      rcases List.mem_cons.mp hr with hrm | hrm
      · injection hrm with hrm
        subst hrm
        rw [if_pos hsup]
        have hsucc' : (BrightnessBackend.set_brightness st.backend r.id value).1 = true := by
          rw [← (hS.set_congr r.id value).1]
          exact hsucc
        have hstep : lookupAssoc (loopStepState value r st).config.per_monitor r.id
            = some (max 0 (min 100 value)) := by
          rw [loopStepState]
          rw [if_pos hsucc']
          exact lookupAssoc_setAssoc_self _ _ _
        rcases set_all_loop_written_values value rest (loopStepState value r st) r.id with
          h | h
        · rw [h, hstep]
        · rw [h]
      · by_cases hs : monitor.supports_brightness = true
        · rw [if_pos hs]
          exact ih (loopStepState value monitor st)
            (Similar_trans hS (set_brightness_similar st.backend monitor.id value))
            hrest r hrm hsup hsucc
        · rw [if_neg hs]
          exact ih st hS hrest r hrm hsup hsucc

theorem set_all_loop_attempts (value : Int) (b0 : BackendState) :
    ∀ (lst : List (Option MonitorInfo)) (st : ControllerState),
      Similar b0 st.backend →
      (∀ e ∈ lst, e ≠ none) →
      ∀ r : MonitorInfo, some r ∈ lst → r.supports_brightness = true →
        ∀ ev ∈ (BrightnessBackend.set_brightness b0 r.id value).2.2,
          ev ∈ (BrightnessController.set_all_loop value lst st).2.2 := by
  intro lst
  induction lst with
  | nil =>
    intro st _ _ r hr
    cases hr
  | cons e rest ih =>
    intro st hS hnone r hr hsup ev hev
    cases e with
    | none => exact absurd rfl (hnone none (List.mem_cons_self _ _))
    | some monitor =>
      have hrest : ∀ e ∈ rest, e ≠ none := fun e he => hnone e (List.mem_cons_of_mem _ he)
      rw [set_all_loop_cons_some]
      rcases List.mem_cons.mp hr with hrm | hrm
      · injection hrm with hrm
        subst hrm
        rw [if_pos hsup]
        show ev ∈ _ ++ _
        refine List.mem_append.mpr (Or.inl ?_)
        rw [← (hS.set_congr r.id value).2]
        exact hev
      · by_cases hs : monitor.supports_brightness = true
        · rw [if_pos hs]
          show ev ∈ _ ++ _
          refine List.mem_append.mpr (Or.inr ?_)
          exact ih (loopStepState value monitor st)
            (Similar_trans hS (set_brightness_similar st.backend monitor.id value))
            hrest r hrm hsup ev hev
        · rw [if_neg hs]
          exact ih st hS hrest r hrm hsup ev hev

theorem set_all_loop_lum_cases (value : Int) :
    ∀ (lst : List (Option MonitorInfo)) (st : ControllerState) (p : Nat) (m : DDCMonitor),
      st.backend.monitors[p]? = some m →
      ∃ m', ((BrightnessController.set_all_loop value lst st).2.1).backend.monitors[p]?
          = some m' ∧ (m'.lum = m.lum ∨ m'.lum = max 0 (min 100 value)) := by
  intro lst
  induction lst with
  | nil =>
    intro st p m hm
    exact ⟨m, hm, Or.inl rfl⟩
  | cons e rest ih =>
    intro st p m hm
    cases e with
    | none => exact ⟨m, hm, Or.inl rfl⟩
    | some monitor =>
      rw [set_all_loop_cons_some]
      by_cases hs : monitor.supports_brightness = true
      · rw [if_pos hs]
        have hstep : ∃ m1, (loopStepState value monitor st).backend.monitors[p]? = some m1 ∧
            (m1.lum = m.lum ∨ m1.lum = max 0 (min 100 value)) := by
          show ∃ m1,
            (BrightnessBackend.set_brightness st.backend monitor.id value).2.1.monitors[p]?
              = some m1 ∧ _
          rcases set_brightness_state st.backend monitor.id value with
            h | ⟨q, mq, hq, h⟩ | ⟨q, dq, hq, h⟩
          · rw [h]
            exact ⟨m, hm, Or.inl rfl⟩
          · rw [h]
            by_cases hqp : q = p
            · subst hqp
              rw [hq] at hm
              injection hm with hm
              subst hm
              refine ⟨_, getElem?_set_self _ _ _ (lt_of_getElem?_some hq), Or.inr rfl⟩
            · refine ⟨m, ?_, Or.inl rfl⟩
              show (st.backend.monitors.set q
                  { mq with lum := max 0 (min 100 value) })[p]? = some m
              rw [getElem?_set_ne _ q p _ hqp]
              exact hm
          · rw [h]
            exact ⟨m, hm, Or.inl rfl⟩
        obtain ⟨m1, hm1, hl1⟩ := hstep
        obtain ⟨m', hm', hl'⟩ := ih (loopStepState value monitor st) p m1 hm1
        refine ⟨m', hm', ?_⟩
        rcases hl' with h' | h'
        · rcases hl1 with h1 | h1
          · exact Or.inl (h'.trans h1)
          · exact Or.inr (h'.trans h1)
        · exact Or.inr h'
      · rw [if_neg hs]
        exact ih st p m hm

theorem set_all_loop_ddc_lum (value : Int) (b0 : BackendState) :
    ∀ (lst : List (Option MonitorInfo)) (st : ControllerState),
      Similar b0 st.backend →
      (∀ e ∈ lst, e ≠ none) →
      ∀ (r : MonitorInfo) (p : Nat) (m : DDCMonitor),
        some r ∈ lst →
        r.supports_brightness = true →
        BrightnessBackend.id_to_index r.id = some r.index →
        0 ≤ BrightnessBackend.apply_monitor_swap b0 r.index →
        BrightnessBackend.apply_monitor_swap b0 r.index
          < (BrightnessBackend.get_monitor_count b0 : Int) →
        p = (BrightnessBackend.apply_monitor_swap b0 r.index).toNat →
        b0.monitors[p]? = some m →
        m.setOk = true →
        ∃ m', ((BrightnessController.set_all_loop value lst st).2.1).backend.monitors[p]?
            = some m' ∧ m'.lum = max 0 (min 100 value) := by
  intro lst
  induction lst with
  | nil =>
    intro st _ _ r p m hr
    cases hr
  | cons e rest ih =>
    intro st hS hnone r p m hr hsup hid h0 hlt hp hm hms
    cases e with
    | none => exact absurd rfl (hnone none (List.mem_cons_self _ _))
    | some monitor =>
      have hrest : ∀ e ∈ rest, e ≠ none := fun e he => hnone e (List.mem_cons_of_mem _ he)
      rw [set_all_loop_cons_some]
      rcases List.mem_cons.mp hr with hrm | hrm
      · injection hrm with hrm
        subst hrm
        rw [if_pos hsup]
        -- transfer the hardware-stage facts from b0 to st.backend
        have h0' : 0 ≤ BrightnessBackend.apply_monitor_swap st.backend r.index := by
          rw [← hS.swap_congr r.index]
          exact h0
        have hlt' : BrightnessBackend.apply_monitor_swap st.backend r.index
            < (BrightnessBackend.get_monitor_count st.backend : Int) := by
          rw [← hS.swap_congr r.index, ← hS.count_congr]
          exact hlt
        have hp' : p = (BrightnessBackend.apply_monitor_swap st.backend r.index).toNat := by
          rw [← hS.swap_congr r.index]
          exact hp
        obtain ⟨mst, hmst, hmsts⟩ :
            ∃ mst, st.backend.monitors[p]? = some mst ∧ mst.setOk = true := by
          rcases hS.mon_flags_cases p with ⟨ha', _⟩ | ⟨ma, mb, ha', hb', _, hsk⟩
          · rw [ha'] at hm
            cases hm
          · rw [ha'] at hm
            injection hm with hm
            subst hm
            exact ⟨mb, hb', by rw [← hsk]; exact hms⟩
        rcases set_brightness_cases st.backend r.id r.index value p (max 0 (min 100 value))
            hid h0' hlt' hp' rfl with
          ⟨m1, hm1, _, heq⟩ | ⟨m1, hm1, hm1s, _⟩ | ⟨hle, _, _⟩
        · -- DDC write succeeded: the head write stores the clamped value
          have hstep : (loopStepState value r st).backend.monitors[p]?
              = some { m1 with lum := max 0 (min 100 value) } := by
            show (BrightnessBackend.set_brightness st.backend r.id value).2.1.monitors[p]?
                = some { m1 with lum := max 0 (min 100 value) }
            rw [heq]
            exact getElem?_set_self _ _ _ (lt_of_getElem?_some hm1)
          obtain ⟨m', hm', hl'⟩ :=
            set_all_loop_lum_cases value rest (loopStepState value r st) p
              { m1 with lum := max 0 (min 100 value) } hstep
          refine ⟨m', hm', ?_⟩
          rcases hl' with h' | h'
          · exact h'
          · exact h'
        · -- contradiction: the DDC monitor at p accepts writes
          rw [hmst] at hm1
          injection hm1 with hm1
          subst hm1
          rw [hmsts] at hm1s
          cases hm1s
        · -- contradiction: p is within the DDC list bounds
          exact absurd (lt_of_getElem?_some hmst) (by omega)
      · by_cases hs : monitor.supports_brightness = true
        · rw [if_pos hs]
          exact ih (loopStepState value monitor st)
            (Similar_trans hS (set_brightness_similar st.backend monitor.id value))
            hrest r p m hrm hsup hid h0 hlt hp hm hms
        · rw [if_neg hs]
          exact ih st hS hrest r p m hrm hsup hid h0 hlt hp hm hms

theorem info_some_elim {s : BackendState} {i : Int} {r : MonitorInfo}
    (h : BrightnessBackend.get_monitor_info s i = some r) :
    r.index = i ∧ r.id = "MONITOR_".toList ++ pyStrOfInt i ∧
    r.supports_brightness = BrightnessBackend.check_brightness_support s i ∧
    0 ≤ BrightnessBackend.apply_monitor_swap s i ∧
    BrightnessBackend.apply_monitor_swap s i < (s.monitors.length : Int) := by
  rw [BrightnessBackend.get_monitor_info] at h
  by_cases hc : BrightnessBackend.apply_monitor_swap s i < 0 ∨
      (s.monitors.length : Int) ≤ BrightnessBackend.apply_monitor_swap s i
  · rw [if_pos hc] at h
    cases h
  · rw [if_neg hc] at h
    push_neg at hc
    injection h with h
    subst h
    exact ⟨rfl, rfl, rfl, hc.1, hc.2⟩

theorem mem_all_info_elim {s : BackendState} {e : Option MonitorInfo}
    (h : e ∈ BrightnessBackend.get_all_monitors_info s) :
    ∃ j : Nat, j < s.monitors.length ∧
      BrightnessBackend.get_monitor_info s (Int.ofNat j) = e := by
  rw [BrightnessBackend.get_all_monitors_info] at h
  obtain ⟨j, hj, hje⟩ := List.mem_map.mp h
  exact ⟨j, List.mem_range.mp hj, hje⟩

theorem info_none_range {s : BackendState} {j : Nat} (hj : j < s.monitors.length)
    (hnone : BrightnessBackend.get_monitor_info s (Int.ofNat j) = none) :
    s.SWAP_MONITOR_ORDER = true ∧ j = 0 ∧ s.monitors.length = 1 := by
  rw [BrightnessBackend.get_monitor_info] at hnone
  by_cases hc : BrightnessBackend.apply_monitor_swap s (Int.ofNat j) < 0 ∨
      (s.monitors.length : Int) ≤ BrightnessBackend.apply_monitor_swap s (Int.ofNat j)
  · rw [BrightnessBackend.apply_monitor_swap] at hc
    cases hsw : s.SWAP_MONITOR_ORDER
    · rw [hsw] at hc
      simp only [Bool.not_false, if_true, Int.ofNat_eq_natCast] at hc
      exfalso
      omega
    · rw [hsw] at hc
      simp only [Bool.not_true, Bool.false_eq_true, if_false] at hc
      by_cases hj0 : j = 0
      · subst hj0
        simp only [Int.ofNat_eq_natCast, Nat.cast_zero, if_pos rfl] at hc
        refine ⟨rfl, rfl, by omega⟩
      · by_cases hj1 : j = 1
        · subst hj1
          rw [if_neg (by decide), if_pos (by decide)] at hc
          exfalso
          omega
        · rw [if_neg (by simp only [Int.ofNat_eq_natCast]; omega),
              if_neg (by simp only [Int.ofNat_eq_natCast]; omega)] at hc
          simp only [Int.ofNat_eq_natCast] at hc
          exfalso
          omega
  · rw [if_neg hc] at hnone
    cases hnone

theorem all_info_no_none {s : BackendState} {r : MonitorInfo}
    (hr : some r ∈ BrightnessBackend.get_all_monitors_info s) :
    ∀ e ∈ BrightnessBackend.get_all_monitors_info s, e ≠ none := by
  intro e he hne
  subst hne
  obtain ⟨j, hj, hjeq⟩ := mem_all_info_elim he
  obtain ⟨j0, hj0, hj0eq⟩ := mem_all_info_elim hr
  obtain ⟨hsw, hj00, hlen⟩ := info_none_range hj hjeq
  subst hj00
  have hj0z : j0 = 0 := by omega
  subst hj0z
  rw [hjeq] at hj0eq
  cases hj0eq

/-- C4: `set_global_brightness(v)` in a state where some brightness-capable
monitor's hardware write fails still persists the clamped value as the
global brightness, leaves the failing monitor's per-monitor value
unchanged, still attempts the hardware write for every brightness-capable
monitor (recording the clamped value per monitor on each success), and
returns normally. -/
theorem C4_set_global_best_effort (st : ControllerState) (v : Int) (r : MonitorInfo)
    (hr : some r ∈ BrightnessBackend.get_all_monitors_info st.backend)
    (hsup : r.supports_brightness = true)
    (hfail : (BrightnessBackend.set_brightness st.backend r.id (max 0 (min 100 v))).1
      = false) :
    (BrightnessController.set_global_brightness st v).1 = Outcome.normal ∧
    (BrightnessController.set_global_brightness st v).2.1.config.global_brightness
      = max 0 (min 100 v) ∧
    lookupAssoc (BrightnessController.set_global_brightness st v).2.1.config.per_monitor r.id
      = lookupAssoc st.config.per_monitor r.id ∧
    (∀ r' : MonitorInfo, some r' ∈ BrightnessBackend.get_all_monitors_info st.backend →
      r'.supports_brightness = true →
      (∀ ev ∈ (BrightnessBackend.set_brightness st.backend r'.id (max 0 (min 100 v))).2.2,
        ev ∈ (BrightnessController.set_global_brightness st v).2.2) ∧
      ((BrightnessBackend.set_brightness st.backend r'.id (max 0 (min 100 v))).1 = true →
        lookupAssoc
            (BrightnessController.set_global_brightness st v).2.1.config.per_monitor r'.id
          = some (max 0 (min 100 v)))) := by
  have hnone : ∀ e ∈ BrightnessBackend.get_all_monitors_info st.backend, e ≠ none :=
    all_info_no_none hr
  rw [BrightnessController.set_global_brightness]
  rw [BrightnessController.set_all_brightness_internal]
  rcases hout : BrightnessController.set_all_loop (max 0 (min 100 v))
      (BrightnessBackend.get_all_monitors_info st.backend)
      { st with config := ConfigManager.set_global_brightness st.config (max 0 (min 100 v)) }
    with ⟨o, st', tr⟩
  have ho : o = Outcome.normal := by
    have h := set_all_loop_normal (max 0 (min 100 v))
      (BrightnessBackend.get_all_monitors_info st.backend)
      { st with config := ConfigManager.set_global_brightness st.config (max 0 (min 100 v)) }
      hnone
    rw [hout] at h
    simpa using h
  subst ho
  have hcf := set_all_loop_config_fields (max 0 (min 100 v))
      (BrightnessBackend.get_all_monitors_info st.backend)
      { st with config := ConfigManager.set_global_brightness st.config (max 0 (min 100 v)) }
  rw [hout] at hcf
  refine ⟨rfl, ?_, ?_, ?_⟩
  · have hg : st'.config.global_brightness
        = max 0 (min 100 (max 0 (min 100 v))) := by
      simpa [ConfigManager.set_global_brightness] using hcf.1
    show st'.config.global_brightness = max 0 (min 100 v)
    omega
  · have h := set_all_loop_fail_unchanged (max 0 (min 100 v)) st.backend
      (BrightnessBackend.get_all_monitors_info st.backend)
      { st with config := ConfigManager.set_global_brightness st.config (max 0 (min 100 v)) }
      (Similar_refl st.backend) r.id hfail
    rw [hout] at h
    show lookupAssoc st'.config.per_monitor r.id = lookupAssoc st.config.per_monitor r.id
    exact h
  · intro r' hr' hsup'
    constructor
    · intro ev hev
      have h := set_all_loop_attempts (max 0 (min 100 v)) st.backend
        (BrightnessBackend.get_all_monitors_info st.backend)
        { st with config := ConfigManager.set_global_brightness st.config (max 0 (min 100 v)) }
        (Similar_refl st.backend) hnone r' hr' hsup' ev hev
      rw [hout] at h
      show ev ∈ tr
      exact h
    · intro hsucc
      have h := set_all_loop_success_recorded (max 0 (min 100 v)) st.backend
        (BrightnessBackend.get_all_monitors_info st.backend)
        { st with config := ConfigManager.set_global_brightness st.config (max 0 (min 100 v)) }
        (Similar_refl st.backend) hnone r' hr' hsup' hsucc
      rw [hout] at h
      show lookupAssoc st'.config.per_monitor r'.id = some (max 0 (min 100 v))
      rw [h]
      congr 1
      omega

/-- The record `get_monitor_info 0` yields on `sampleBackend`: logical 0,
physical 1 (swap), primary, capable via DDC/CI, but its DDC/CI monitor
refuses writes and WMI has no display at physical index 1. -/
def sampleRecord0 : MonitorInfo :=
  { id := "MONITOR_".toList ++ pyStrOfInt 0
    name := "Monitor ".toList ++ pyStrOfInt 1
    index := 0
    is_primary := true
    supports_brightness := true }

theorem sampleRecord0_info :
    BrightnessBackend.get_monitor_info sampleBackend (Int.ofNat 0) = some sampleRecord0 := rfl

theorem sampleRecord0_mem :
    some sampleRecord0 ∈ BrightnessBackend.get_all_monitors_info sampleBackend := by
  rw [BrightnessBackend.get_all_monitors_info]
  exact List.mem_map.mpr ⟨0, List.mem_range.mpr (by decide), sampleRecord0_info⟩

theorem sampleRecord0_set_fails :
    (BrightnessBackend.set_brightness sampleBackend sampleRecord0.id (max 0 (min 100 50))).1
      = false := by
  rcases set_brightness_cases sampleBackend sampleRecord0.id 0 (max 0 (min 100 50)) 1
      (max 0 (min 100 50)) (BrightnessBackend.id_to_index_mk 0)
      (by decide) (by decide) (by decide) (by decide) with
    ⟨m, hm, hms, _⟩ | ⟨m, hm, hms, hrest⟩ | ⟨hle, _, _⟩
  · have hm40 : sampleBackend.monitors[(1 : Nat)]? = some ⟨40, true, false⟩ := rfl
    rw [hm40] at hm
    injection hm with hm
    subst hm
    exact absurd hms (by decide)
  · rcases hrest with ⟨d, hd, _, _⟩ | ⟨d, hd, _, _⟩ | ⟨_, heq⟩
    · have hdn : sampleBackend.sbc_displays[(1 : Nat)]? = none := rfl
      rw [hdn] at hd
      cases hd
    · have hdn : sampleBackend.sbc_displays[(1 : Nat)]? = none := rfl
      rw [hdn] at hd
      cases hd
    · rw [heq]
  · exact absurd hle (by decide)

/-- Witness for C4: a concrete two-monitor state where the capable monitor
at logical index 0 refuses the hardware write. -/
theorem C4_set_global_best_effort_witness :
    some sampleRecord0 ∈ BrightnessBackend.get_all_monitors_info sampleBackend ∧
    sampleRecord0.supports_brightness = true ∧
    (BrightnessBackend.set_brightness sampleBackend sampleRecord0.id (max 0 (min 100 50))).1
      = false ∧
    ((BrightnessController.set_global_brightness
        ⟨sampleBackend, ConfigManager.defaultConfigState⟩ 50).1 = Outcome.normal ∧
      (BrightnessController.set_global_brightness
          ⟨sampleBackend, ConfigManager.defaultConfigState⟩ 50).2.1.config.global_brightness
        = max 0 (min 100 50) ∧
      lookupAssoc (BrightnessController.set_global_brightness
          ⟨sampleBackend, ConfigManager.defaultConfigState⟩ 50).2.1.config.per_monitor
          sampleRecord0.id
        = lookupAssoc (ConfigManager.defaultConfigState).per_monitor sampleRecord0.id ∧
      (∀ r' : MonitorInfo,
        some r' ∈ BrightnessBackend.get_all_monitors_info sampleBackend →
        r'.supports_brightness = true →
        (∀ ev ∈ (BrightnessBackend.set_brightness sampleBackend r'.id
            (max 0 (min 100 50))).2.2,
          ev ∈ (BrightnessController.set_global_brightness
            ⟨sampleBackend, ConfigManager.defaultConfigState⟩ 50).2.2) ∧
        ((BrightnessBackend.set_brightness sampleBackend r'.id (max 0 (min 100 50))).1
            = true →
          lookupAssoc (BrightnessController.set_global_brightness
              ⟨sampleBackend, ConfigManager.defaultConfigState⟩ 50).2.1.config.per_monitor
              r'.id
            = some (max 0 (min 100 50))))) :=
  ⟨sampleRecord0_mem, rfl, sampleRecord0_set_fails,
    C4_set_global_best_effort ⟨sampleBackend, ConfigManager.defaultConfigState⟩ 50
      sampleRecord0 sampleRecord0_mem rfl sampleRecord0_set_fails⟩

/-- C5: `toggle_sync_mode(true)` persists sync mode as enabled, applies the
currently persisted global brightness to every monitor that reports
`supports_brightness` (recording it per monitor on each successful write)
while never rewriting the persisted global value, and — when no DDC/CI
hardware call fails — afterwards every brightness-capable monitor's
hardware brightness equals the persisted global brightness. -/
theorem C5_toggle_sync_applies_global (st : ControllerState)
    (hg0 : 0 ≤ st.config.global_brightness) (hg1 : st.config.global_brightness ≤ 100) :
    (BrightnessController.toggle_sync_mode st true).2.1.config.sync_mode = true ∧
    (BrightnessController.toggle_sync_mode st true).2.1.config.global_brightness
      = st.config.global_brightness ∧
    (∀ r : MonitorInfo, some r ∈ BrightnessBackend.get_all_monitors_info st.backend →
      r.supports_brightness = true →
      (∀ ev ∈ (BrightnessBackend.set_brightness st.backend r.id
          st.config.global_brightness).2.2,
        ev ∈ (BrightnessController.toggle_sync_mode st true).2.2) ∧
      ((BrightnessBackend.set_brightness st.backend r.id st.config.global_brightness).1
          = true →
        lookupAssoc (BrightnessController.toggle_sync_mode st true).2.1.config.per_monitor
            r.id
          = some st.config.global_brightness)) ∧
    ((∀ m ∈ st.backend.monitors, m.getOk = true ∧ m.setOk = true) →
      ∀ r : MonitorInfo, some r ∈ BrightnessBackend.get_all_monitors_info st.backend →
        r.supports_brightness = true →
        (BrightnessBackend.get_brightness
            (BrightnessController.toggle_sync_mode st true).2.1.backend r.id).1
          = some st.config.global_brightness) := by
  have hclamp : max 0 (min 100 st.config.global_brightness)
      = st.config.global_brightness := by omega
  rw [show BrightnessController.toggle_sync_mode st true
      = BrightnessController.set_all_brightness_internal
          { st with config := ConfigManager.set_sync_mode st.config true }
          st.config.global_brightness false from rfl]
  rw [BrightnessController.set_all_brightness_internal]
  rcases hout : BrightnessController.set_all_loop st.config.global_brightness
      (BrightnessBackend.get_all_monitors_info st.backend)
      { st with config := ConfigManager.set_sync_mode st.config true }
    with ⟨o, st', tr⟩
  have hcf := set_all_loop_config_fields st.config.global_brightness
      (BrightnessBackend.get_all_monitors_info st.backend)
      { st with config := ConfigManager.set_sync_mode st.config true }
  rw [hout] at hcf
  have hsync : st'.config.sync_mode = true := by
    simpa [ConfigManager.set_sync_mode] using hcf.2.1
  have hglob : st'.config.global_brightness = st.config.global_brightness := by
    simpa [ConfigManager.set_sync_mode] using hcf.1
  refine ⟨?_, ?_, ?_, ?_⟩
  · cases o
    · show st'.config.sync_mode = true
      exact hsync
    · show st'.config.sync_mode = true
      exact hsync
  · cases o
    · show st'.config.global_brightness = st.config.global_brightness
      exact hglob
    · show st'.config.global_brightness = st.config.global_brightness
      exact hglob
  · intro r hr hsup
    have hnone : ∀ e ∈ BrightnessBackend.get_all_monitors_info st.backend, e ≠ none :=
      all_info_no_none hr
    have ho : o = Outcome.normal := by
      have h := set_all_loop_normal st.config.global_brightness
        (BrightnessBackend.get_all_monitors_info st.backend)
        { st with config := ConfigManager.set_sync_mode st.config true } hnone
      rw [hout] at h
      simpa using h
    subst ho
    constructor
    · intro ev hev
      have h := set_all_loop_attempts st.config.global_brightness st.backend
        (BrightnessBackend.get_all_monitors_info st.backend)
        { st with config := ConfigManager.set_sync_mode st.config true }
        (Similar_refl st.backend) hnone r hr hsup ev hev
      rw [hout] at h
      show ev ∈ tr
      exact h
    · intro hsucc
      have h := set_all_loop_success_recorded st.config.global_brightness st.backend
        (BrightnessBackend.get_all_monitors_info st.backend)
        { st with config := ConfigManager.set_sync_mode st.config true }
        (Similar_refl st.backend) hnone r hr hsup hsucc
      rw [hout] at h
      rw [hclamp] at h
      show lookupAssoc st'.config.per_monitor r.id = some st.config.global_brightness
      exact h
  · intro hhw r hr hsup
    have hnone : ∀ e ∈ BrightnessBackend.get_all_monitors_info st.backend, e ≠ none :=
      all_info_no_none hr
    have ho : o = Outcome.normal := by
      have h := set_all_loop_normal st.config.global_brightness
        (BrightnessBackend.get_all_monitors_info st.backend)
        { st with config := ConfigManager.set_sync_mode st.config true } hnone
      rw [hout] at h
      simpa using h
    subst ho
    obtain ⟨j, hj, hjinfo⟩ := mem_all_info_elim hr
    obtain ⟨hidx, hidshape, _, hsw0, hswlt⟩ := info_some_elim hjinfo
    have hid : BrightnessBackend.id_to_index r.id = some r.index := by
      rw [hidshape, BrightnessBackend.id_to_index_mk, hidx]
    have hsw0' : 0 ≤ BrightnessBackend.apply_monitor_swap st.backend r.index := by
      rw [hidx]
      exact hsw0
    have hswlt' : BrightnessBackend.apply_monitor_swap st.backend r.index
        < (st.backend.monitors.length : Int) := by
      rw [hidx]
      exact hswlt
    have hcount' : BrightnessBackend.apply_monitor_swap st.backend r.index
        < (BrightnessBackend.get_monitor_count st.backend : Int) := by
      have hle : st.backend.monitors.length ≤ BrightnessBackend.get_monitor_count st.backend :=
        Nat.le_max_left _ _
      omega
    have hplen : (BrightnessBackend.apply_monitor_swap st.backend r.index).toNat
        < st.backend.monitors.length := by omega
    obtain ⟨m, hm⟩ : ∃ m,
        st.backend.monitors[(BrightnessBackend.apply_monitor_swap st.backend r.index).toNat]?
          = some m :=
      ⟨_, List.getElem?_eq_getElem hplen⟩
    have hmval : st.backend.monitors[(BrightnessBackend.apply_monitor_swap
        st.backend r.index).toNat] = m := by
      have h2 := List.getElem?_eq_getElem (l := st.backend.monitors) hplen
      rw [hm] at h2
      injection h2 with h2
      exact h2.symm
    have hmem : m ∈ st.backend.monitors := by
      rw [← hmval]
      exact List.getElem_mem _
    obtain ⟨hmget, hmset⟩ := hhw m hmem
    have hlum := set_all_loop_ddc_lum st.config.global_brightness st.backend
      (BrightnessBackend.get_all_monitors_info st.backend)
      { st with config := ConfigManager.set_sync_mode st.config true }
      (Similar_refl st.backend) hnone r
      (BrightnessBackend.apply_monitor_swap st.backend r.index).toNat m
      hr hsup hid hsw0' hcount' rfl hm hmset
    rw [hout] at hlum
    obtain ⟨m', hm', hlum'⟩ := hlum
    have hSfin : Similar st.backend st'.backend := by
      have h := set_all_loop_similar st.config.global_brightness
        (BrightnessBackend.get_all_monitors_info st.backend)
        { st with config := ConfigManager.set_sync_mode st.config true }
      rw [hout] at h
      exact h
    have hget' : m'.getOk = true := by
      rcases hSfin.mon_flags_cases
          ((BrightnessBackend.apply_monitor_swap st.backend r.index).toNat) with
        ⟨ha', _⟩ | ⟨ma, mb, ha', hb', hgg, _⟩
      · rw [ha'] at hm
        cases hm
      · rw [ha'] at hm
        injection hm with hme
        rw [hb'] at hm'
        injection hm' with hme'
        rw [← hme'] at hlum' ⊢
        rw [← hgg, hme]
        exact hmget
    have hswf : BrightnessBackend.apply_monitor_swap st'.backend r.index
        = BrightnessBackend.apply_monitor_swap st.backend r.index :=
      (hSfin.swap_congr r.index).symm
    rcases get_brightness_cases st'.backend r.id r.index
        ((BrightnessBackend.apply_monitor_swap st.backend r.index).toNat) hid
        (by rw [hswf]; exact hsw0')
        (by rw [hswf, ← hSfin.count_congr]; exact hcount')
        (by rw [hswf]) with
      ⟨mq, hmq, hgq, heq⟩ | ⟨mq, hmq, hgq, _⟩ | ⟨hle, _, _⟩
    · rw [hm'] at hmq
      injection hmq with hmq
      show (BrightnessBackend.get_brightness st'.backend r.id).1
          = some st.config.global_brightness
      rw [heq]
      show some mq.lum = some st.config.global_brightness
      rw [← hmq, hlum', hclamp]
    · rw [hm'] at hmq
      injection hmq with hmq
      rw [← hmq] at hgq
      rw [hget'] at hgq
      cases hgq
    · have hlen : (BrightnessBackend.apply_monitor_swap st.backend r.index).toNat
          < st'.backend.monitors.length := lt_of_getElem?_some hm'
      exact absurd hlen (by omega)

/-- A fully working two-monitor backend (DDC/CI reads and writes succeed). -/
def syncBackend : BackendState :=
  { monitors := [⟨10, true, true⟩, ⟨20, true, true⟩]
    sbc_displays := []
    primary_monitor_index := 1
    SWAP_MONITOR_ORDER := true }

/-- A controller over `syncBackend` with sync off and global brightness 70. -/
def syncController : ControllerState :=
  { backend := syncBackend
    config := { sync_mode := false, global_brightness := 70, per_monitor := [],
                auto_start := false } }

/-- Witness for C5 at a concrete all-working two-monitor state. -/
theorem C5_toggle_sync_applies_global_witness :
    (0 : Int) ≤ 70 ∧ (70 : Int) ≤ 100 ∧
    ((BrightnessController.toggle_sync_mode syncController true).2.1.config.sync_mode
        = true ∧
      (BrightnessController.toggle_sync_mode syncController true).2.1.config.global_brightness
        = 70 ∧
      (∀ r : MonitorInfo, some r ∈ BrightnessBackend.get_all_monitors_info syncBackend →
        r.supports_brightness = true →
        (∀ ev ∈ (BrightnessBackend.set_brightness syncBackend r.id 70).2.2,
          ev ∈ (BrightnessController.toggle_sync_mode syncController true).2.2) ∧
        ((BrightnessBackend.set_brightness syncBackend r.id 70).1 = true →
          lookupAssoc
              (BrightnessController.toggle_sync_mode
                syncController true).2.1.config.per_monitor r.id
            = some 70)) ∧
      ((∀ m ∈ syncBackend.monitors, m.getOk = true ∧ m.setOk = true) →
        ∀ r : MonitorInfo, some r ∈ BrightnessBackend.get_all_monitors_info syncBackend →
          r.supports_brightness = true →
          (BrightnessBackend.get_brightness
              (BrightnessController.toggle_sync_mode syncController true).2.1.backend
              r.id).1
            = some 70)) :=
  ⟨by decide, by decide,
    C5_toggle_sync_applies_global syncController (by decide) (by decide)⟩
